import Mathlib

/-!
Dhyana camera plugin: acquisition state machine

A shallow embedding of `src/src/DhyanaCamera.cpp` (class `lima::Dhyana::Camera` and its
producer thread `Camera::AcqThread`).

Conventions of the embedding

* The member variables of `Camera` are the fields of the structure `Camera`.
* C `double` values are rationals, C `int` values are integers.
* Calls into collaborators (vendor driver, host buffer manager, trigger timer, condition
  variable, event handle) are recorded, in program order, as a list of `Event`s returned
  next to the new camera state.
* What collaborators answer is an explicit input: `PrepareEnv` for `prepareAcq`,
  `IterInput` for one pass through the body of the capture loop, the return code or the
  value read for the property calls of the scalar setters and getters.
* A member function that may throw returns an `Outcome`: the members and the calls at
  the return or at the throw, and the error thrown if any.
* The mutex is not modelled: every operation is one atomic step of the state.
-/

namespace Dhyana

/-! ## Data model -/

/-- Camera status, `Camera::Status`. -/
inductive Status where
  | Ready
  | Exposure
  | Readout
  | Fault
  deriving DecidableEq, Repr

/-- Trigger modes of the host framework, `lima::TrigMode`. -/
inductive TrigMode where
  | IntTrig
  | IntTrigMult
  | ExtTrigSingle
  | ExtTrigMult
  | ExtGate
  | ExtStartStop
  | ExtTrigReadout
  deriving DecidableEq, Repr

/-- Capture modes handed to `TUCAM_Cap_Start`. -/
inductive CaptureMode where
  | TUCCM_TRIGGER_SOFTWARE
  | TUCCM_TRIGGER_STANDARD
  deriving DecidableEq, Repr

/-- Exposure modes of a trigger attribute (`TUCTE_EXPTM`, `TUCTE_WIDTH`). -/
inductive ExposureMode where
  | TUCTE_EXPTM
  | TUCTE_WIDTH
  deriving DecidableEq, Repr

/-- Edge modes of a trigger attribute; the plugin only uses the rising edge. -/
inductive EdgeMode where
  | TUCTD_RISING
  | TUCTD_FAILING
  deriving DecidableEq, Repr

/-- The trigger attribute handed to `TUCAM_Cap_SetTrigger`. -/
structure TUCAM_TRIGGER_ATTR where
  nTgrMode : CaptureMode
  nFrames : Int
  nDelayTm : Int
  nExpMode : ExposureMode
  nEdgeMode : EdgeMode
  deriving DecidableEq, Repr

/-- Errors raised with `THROW_HW_ERROR`. -/
inductive HwError where
  | Error (msg : String)
  | NotSupported (msg : String)
  deriving DecidableEq, Repr

/-- Frame formats of the vendor frame descriptor; only the raw format is named in the source. -/
inductive FrameFormat where
  | TUFRM_FMT_RAW
  | other (code : Nat)
  deriving DecidableEq, Repr

/-- The driver properties the plugin reads or writes by identifier. -/
inductive PropId where
  | TUIDP_EXPOSURETM
  | TUIDP_TEMPERATURE
  deriving DecidableEq, Repr

/-- Event handles; `NULL` is the unset handle. -/
abbrev HANDLE := Nat

/-- The null handle / null pointer. -/
def NULL : HANDLE := 0

/-- The fields of the vendor frame descriptor `m_frame` that the plugin reads or writes.
`pBuffer` is the address of the transfer buffer (`NULL` when none), `data` stands for the
image bytes found at `pBuffer + usOffset`. -/
structure TUCAM_FRAME where
  pBuffer : Nat
  ucFormatGet : FrameFormat
  uiRsdSize : Nat
  uiIndex : Nat
  data : Nat
  deriving DecidableEq, Repr

/-- Calls into collaborators, recorded in program order. -/
inductive Event where
  | TUCAM_Buf_Alloc
  | TUCAM_Cap_Start (mode : CaptureMode)
  | CreateEvent
  | timer_start
  | timer_stop
  | setStartTimestamp
  | cond_broadcast
  | cond_wait
  | TUCAM_Buf_AbortWait
  | WaitForSingleObject (h : HANDLE)
  | CloseHandle (h : HANDLE)
  | TUCAM_Cap_Stop
  | TUCAM_Buf_Release
  | TUCAM_Buf_WaitForFrame (success : Bool)
  | getFrameBufferPtr (frame_nb : Int)
  | memcpy (slot : Int) (data : Nat)
  | newFrameReady (acq_frame_nb : Int)
  | usleep (microseconds : Nat)
  | SetEvent (h : HANDLE)
  | TUCAM_Cap_SetTrigger (attr : TUCAM_TRIGGER_ATTR)
  | TUCAM_Prop_SetValue (id : PropId) (value : Rat) (success : Bool)
  | TUCAM_Prop_GetValue (id : PropId) (success : Bool)
  | TUCAM_Prop_GetAttr (id : PropId) (success : Bool)
  deriving DecidableEq, Repr

/-- The member variables of `Camera` used by the acquisition core and the scalar setters. -/
structure Camera where
  m_depth : Nat
  m_trigger_mode : TrigMode
  m_status : Status
  m_acq_frame_nb : Int
  m_nb_frames : Int
  m_exp_time : Rat
  m_lat_time : Rat
  m_temperature_target : Rat
  m_timer_period_ms : Nat
  m_fps : Rat
  m_bin : Int × Int
  m_wait_flag : Bool
  m_quit : Bool
  m_thread_running : Bool
  m_hThdEvent : HANDLE
  m_frame : TUCAM_FRAME
  deriving DecidableEq

/-- How a member function that may throw ends: the members and the calls issued up to
the return or up to the throw, the error thrown if any, and the value left in the
caller's output variable (`Unit` when there is none). -/
structure Outcome (α : Type) where
  cam : Camera
  log : List Event
  thrown : Option HwError
  out : α
  deriving DecidableEq

/-- What the collaborators answer during `prepareAcq`: the buffer address installed by
`TUCAM_Buf_Alloc` and the handle returned by `CreateEvent`. -/
structure PrepareEnv where
  allocated : Nat
  newEvent : HANDLE
  deriving DecidableEq, Repr

/-- What the environment contributes to one pass through the body of the capture loop.

* `stopRequested`: the control thread has written `m_wait_flag = true` (in `stopAcq`)
  before this pass reads the flag;
* `waitOk`: `TUCAM_Buf_WaitForFrame` returned `TUCAMRET_SUCCESS`;
* `uiIndex`, `data`: what the driver stored in `m_frame` on success;
* `hostContinue`: the value returned by `newFrameReady`;
* `delta_fps`: `t1_fps - t0_fps` measured at the end of the pass. -/
structure IterInput where
  stopRequested : Bool
  waitOk : Bool
  uiIndex : Nat
  data : Nat
  hostContinue : Bool
  delta_fps : Rat
  deriving DecidableEq

/-! ## Status model -/

/-- `Camera::setStatus` (lines 304-311). -/
def Camera.setStatus (c : Camera) (status : Status) (force : Bool) : Camera :=
  if force || c.m_status != Status.Fault then { c with m_status := status } else c

/-- `Camera::getStatus` (lines 316-323). -/
def Camera.getStatus (c : Camera) : Status :=
  c.m_status

/-! ## Construction -/

/-- The constructor with `init` and the `AcqThread` constructor (lines 46-67, 92-146,
491-499), followed by the producer thread parking in its idle wait (lines 356-362).
`u` gives the values of the members that the constructor leaves unset. -/
def Camera.ctor (timer_period_ms : Nat) (u : Camera) : Camera :=
  { u with
    m_depth := 16
    m_trigger_mode := TrigMode.IntTrig
    m_status := Status.Ready
    m_acq_frame_nb := 0
    m_temperature_target := 0
    m_timer_period_ms := timer_period_ms
    m_fps := 0
    m_hThdEvent := NULL
    m_wait_flag := true
    m_quit := false
    m_thread_running := false }

/-! ## Trigger mode -/

/-- `Camera::checkTrigMode` (lines 619-640). -/
def checkTrigMode (mode : TrigMode) : Bool :=
  match mode with
  | TrigMode.IntTrig => true
  | TrigMode.ExtTrigMult => true
  | TrigMode.ExtGate => true
  | _ => false

/-- `Camera::setTrigMode` (lines 645-687). The unsupported modes throw in the `switch`,
before the assignment of `m_trigger_mode` and with no driver call issued. -/
def Camera.setTrigMode (mode : TrigMode) (c : Camera) : Outcome Unit :=
  match mode with
  | TrigMode.IntTrig =>
    ⟨{ c with m_trigger_mode := mode },
      [Event.TUCAM_Cap_SetTrigger
        ⟨CaptureMode.TUCCM_TRIGGER_SOFTWARE, 1, 0, ExposureMode.TUCTE_EXPTM, EdgeMode.TUCTD_RISING⟩],
      none, ()⟩
  | TrigMode.ExtTrigMult =>
    ⟨{ c with m_trigger_mode := mode },
      [Event.TUCAM_Cap_SetTrigger
        ⟨CaptureMode.TUCCM_TRIGGER_STANDARD, 1, 0, ExposureMode.TUCTE_EXPTM, EdgeMode.TUCTD_RISING⟩],
      none, ()⟩
  | TrigMode.ExtGate =>
    ⟨{ c with m_trigger_mode := mode },
      [Event.TUCAM_Cap_SetTrigger
        ⟨CaptureMode.TUCCM_TRIGGER_STANDARD, 1, 0, ExposureMode.TUCTE_WIDTH, EdgeMode.TUCTD_RISING⟩],
      none, ()⟩
  | _ => ⟨c, [], some (HwError.NotSupported "mode"), ()⟩

/-- `Camera::getTrigMode` (lines 692-696). -/
def Camera.getTrigMode (c : Camera) : TrigMode :=
  c.m_trigger_mode

/-! ## Scalar configuration -/

/-- The cast `(int) x` of a `double`: truncation toward zero. Outside the range of `int`
the C cast has no defined value; the embedding keeps the mathematical one. -/
def castInt (x : Rat) : Int :=
  if 0 ≤ x then Rat.floor x else Rat.ceil x

/-- `Camera::setExpTime` (lines 743-754); `ok` tells whether `TUCAM_Prop_SetValue`
returned `TUCAMRET_SUCCESS`. -/
def Camera.setExpTime (ok : Bool) (exp_time : Rat) (c : Camera) : Outcome Unit :=
  if ok then
    ⟨{ c with m_exp_time := exp_time },
      [Event.TUCAM_Prop_SetValue PropId.TUIDP_EXPOSURETM (exp_time * 1000) true], none, ()⟩
  else
    ⟨c, [Event.TUCAM_Prop_SetValue PropId.TUIDP_EXPOSURETM (exp_time * 1000) false],
      some (HwError.Error "Unable to Write TUIDP_EXPOSURETM to the camera !"), ()⟩

/-- `Camera::getExpTime` (lines 725-738); `answer` is the value `TUCAM_Prop_GetValue`
stored in `dbVal`, or `none` when the call failed; `exp_time` is the caller's variable. -/
def Camera.getExpTime (answer : Option Rat) (exp_time : Rat) (c : Camera) : Outcome Rat :=
  match answer with
  | some dbVal =>
    ⟨{ c with m_exp_time := dbVal / 1000 },
      [Event.TUCAM_Prop_GetValue PropId.TUIDP_EXPOSURETM true], none, dbVal / 1000⟩
  | none =>
    ⟨c, [Event.TUCAM_Prop_GetValue PropId.TUIDP_EXPOSURETM false],
      some (HwError.Error "Unable to Read TUIDP_EXPOSURETM from the camera !"), exp_time⟩

/-- `Camera::setNbFrames` (lines 810-825). -/
def Camera.setNbFrames (nb_frames : Int) (c : Camera) : Outcome Unit :=
  if nb_frames < 0 then
    ⟨c, [], some (HwError.Error "Number of frames to acquire has not been set"), ()⟩
  else ⟨{ c with m_nb_frames := nb_frames }, [], none, ()⟩

/-- `Camera::getNbFrames` (lines 830-837); `nb_frames` is the caller's variable. -/
def Camera.getNbFrames (_nb_frames : Int) (c : Camera) : Outcome Int :=
  ⟨c, [], none, c.m_nb_frames⟩

/-- `Camera::checkBin` (lines 851-867); `hw_bin` is the caller's variable, read and
written back. -/
def Camera.checkBin (hw_bin : Int × Int) (c : Camera) : Outcome (Int × Int) :=
  if hw_bin.1 ≠ 1 ∨ hw_bin.2 ≠ 1 then
    ⟨c, [], some (HwError.Error "Binning values not supported"), hw_bin⟩
  else ⟨c, [], none, (hw_bin.1, hw_bin.2)⟩

/-- `Camera::setBin` (lines 871-881). -/
def Camera.setBin (set_bin : Int × Int) (c : Camera) : Outcome Unit :=
  ⟨{ c with m_bin := set_bin }, [], none, ()⟩

/-- `Camera::getBin` (lines 886-900); `hw_bin` is the caller's variable. -/
def Camera.getBin (_hw_bin : Int × Int) (c : Camera) : Outcome (Int × Int) :=
  ⟨{ c with m_bin := (1, 1) }, [], none, (1, 1)⟩

/-- The message of the range error of `setTemperatureTarget` (lines 1027-1033). -/
def temperatureRangeMessage (lo hi : Int) : String :=
  "Unable to set the Temperature Target !\nIt is out of range : [" ++ toString lo ++ ","
    ++ toString hi ++ "]"

/-- `Camera::setTemperatureTarget` (lines 1012-1042); `attr` is the range
`(dbValMin, dbValMax)` stored by `TUCAM_Prop_GetAttr`, or `none` when that call failed;
`ok` tells whether `TUCAM_Prop_SetValue` returned `TUCAMRET_SUCCESS`. -/
def Camera.setTemperatureTarget (attr : Option (Rat × Rat)) (ok : Bool) (temp : Rat)
    (c : Camera) : Outcome Unit :=
  match attr with
  | none =>
    ⟨c, [Event.TUCAM_Prop_GetAttr PropId.TUIDP_TEMPERATURE false],
      some (HwError.Error "Unable to Read TUIDP_TEMPERATURE range from the camera !"), ()⟩
  | some (dbValMin, dbValMax) =>
    let temp_middle : Int := Int.tdiv (castInt dbValMax) 2
    if castInt temp + temp_middle < castInt dbValMin
        ∨ castInt temp + temp_middle > castInt dbValMax then
      ⟨c, [Event.TUCAM_Prop_GetAttr PropId.TUIDP_TEMPERATURE true],
        some (HwError.Error (temperatureRangeMessage (castInt dbValMin - temp_middle)
          (castInt dbValMax - temp_middle))), ()⟩
    else
      let nVal : Int := castInt temp + temp_middle
      if ok then
        ⟨{ c with m_temperature_target := temp },
          [Event.TUCAM_Prop_GetAttr PropId.TUIDP_TEMPERATURE true,
           Event.TUCAM_Prop_SetValue PropId.TUIDP_TEMPERATURE (nVal : Rat) true], none, ()⟩
      else
        ⟨c, [Event.TUCAM_Prop_GetAttr PropId.TUIDP_TEMPERATURE true,
           Event.TUCAM_Prop_SetValue PropId.TUIDP_TEMPERATURE (nVal : Rat) false],
          some (HwError.Error "Unable to Write TUIDP_TEMPERATURE to the camera !"), ()⟩

/-- `Camera::getTemperatureTarget` (lines 1047-1052); `temp` is the caller's variable. -/
def Camera.getTemperatureTarget (_temp : Rat) (c : Camera) : Outcome Rat :=
  ⟨c, [], none, c.m_temperature_target⟩

/-- `Camera::setLatTime` (lines 760-765). -/
def Camera.setLatTime (lat_time : Rat) (c : Camera) : Outcome Unit :=
  ⟨{ c with m_lat_time := lat_time }, [], none, ()⟩

/-- `Camera::getLatTime` (lines 770-777); `lat_time` is the caller's variable. The body is
the assignment `m_lat_time = lat_time`: the member is written from the caller's variable,
which is left as it was. -/
def Camera.getLatTime (lat_time : Rat) (c : Camera) : Outcome Rat :=
  ⟨{ c with m_lat_time := lat_time }, [], none, lat_time⟩

/-- The capture-start call of `prepareAcq` (lines 184-198): one `TUCAM_Cap_Start` for each of
the three supported trigger modes, nothing for any other mode. -/
def capStartEvents (mode : TrigMode) : List Event :=
  if mode = TrigMode.IntTrig then [Event.TUCAM_Cap_Start CaptureMode.TUCCM_TRIGGER_SOFTWARE]
  else if mode = TrigMode.ExtTrigMult then
    [Event.TUCAM_Cap_Start CaptureMode.TUCCM_TRIGGER_STANDARD]
  else if mode = TrigMode.ExtGate then
    [Event.TUCAM_Cap_Start CaptureMode.TUCCM_TRIGGER_STANDARD]
  else []

/-- `Camera::prepareAcq` (lines 163-216). -/
def Camera.prepareAcq (env : PrepareEnv) (c : Camera) : Camera × List Event :=
  let c1 := c.setStatus Status.Exposure false
  let armed : Camera × List Event :=
    if c1.m_hThdEvent = NULL then
      ({ c1 with
          m_frame := { c1.m_frame with
            pBuffer := env.allocated
            ucFormatGet := FrameFormat.TUFRM_FMT_RAW
            uiRsdSize := 1 }
          m_hThdEvent := env.newEvent },
        [Event.TUCAM_Buf_Alloc] ++ capStartEvents c1.m_trigger_mode ++ [Event.CreateEvent])
    else (c1, [])
  let timer : List Event :=
    if armed.1.m_trigger_mode = TrigMode.IntTrig then [Event.timer_start] else []
  (armed.1, armed.2 ++ timer)

/-- `Camera::startAcq` (lines 221-247), up to and including the wait for the producer
thread's acknowledgement. -/
def Camera.startAcq (c : Camera) : Camera × List Event :=
  let c1 := { c with m_acq_frame_nb := 0, m_fps := 0 }
  let c2 := c1.setStatus Status.Exposure false
  ({ c2 with m_wait_flag := false, m_quit := false },
    [Event.setStartTimestamp, Event.cond_broadcast, Event.cond_wait])

/-- `Camera::stopAcq` (lines 252-299). The function has no throwing path; a call returns
once `WaitForSingleObject` has returned. -/
def Camera.stopAcq (c : Camera) : Camera × List Event :=
  let woken : Camera × List Event :=
    if c.m_thread_running = true then ({ c with m_wait_flag := true }, [Event.cond_broadcast])
    else (c, [])
  let released : Camera × List Event :=
    if woken.1.m_hThdEvent ≠ NULL then
      ({ woken.1 with m_hThdEvent := NULL },
        [Event.TUCAM_Buf_AbortWait,
         Event.WaitForSingleObject woken.1.m_hThdEvent,
         Event.CloseHandle woken.1.m_hThdEvent,
         Event.TUCAM_Cap_Stop,
         Event.TUCAM_Buf_Release])
    else (woken.1, [])
  let timer : List Event :=
    if released.1.m_trigger_mode = TrigMode.IntTrig then [Event.timer_stop] else []
  (released.1.setStatus Status.Ready false, woken.2 ++ released.2 ++ timer)

/-- `Camera::reset` (lines 151-158). -/
def Camera.reset (c : Camera) : Camera × List Event :=
  c.stopAcq

/-! ## Producer loop -/

/-- The cast `(DWORD) x` of a non-negative `double`: truncation, then 32 bits. -/
def toDWORD (x : Rat) : Nat :=
  (Int.toNat (Rat.floor x)) % 2 ^ 32

/-- The condition of the capture loop (line 380). -/
def loopCond (continueFlag : Bool) (c : Camera) : Bool :=
  continueFlag && (c.m_nb_frames == 0 || decide (c.m_acq_frame_nb < c.m_nb_frames))

/-- The pacing condition (line 440); `&&` binds tighter than `||`. -/
def latencyCond (c : Camera) : Bool :=
  c.m_nb_frames == 0 || (decide (c.m_acq_frame_nb < c.m_nb_frames) && c.m_lat_time != 0)

/-- The frame-rate update that ends a pass (lines 452-457). -/
def updateFps (delta_fps : Rat) (c : Camera) : Camera :=
  if 0 < delta_fps then { c with m_fps := (c.m_acq_frame_nb : Rat) / delta_fps } else c

/-- The success branch of the frame wait (lines 400-445): returns the new `continueFlag`. -/
def frameReceived (i : IterInput) (c : Camera) : Bool × Camera × List Event :=
  let c1 := { c with m_frame := { c.m_frame with uiIndex := i.uiIndex, data := i.data } }
  let c2 := c1.setStatus Status.Readout false
  let slot := c2.m_acq_frame_nb
  let c3 := { c2 with m_acq_frame_nb := c2.m_acq_frame_nb + 1 }
  let pacing : List Event :=
    if latencyCond c3 then [Event.usleep (toDWORD (c3.m_lat_time * 1000000))] else []
  (i.hostContinue, c3,
    [Event.TUCAM_Buf_WaitForFrame true,
     Event.getFrameBufferPtr slot,
     Event.memcpy slot c2.m_frame.data,
     Event.newFrameReady slot] ++ pacing)

/-- One pass through the body of the capture loop (lines 381-458), entered with
`continueFlag = true`; returns the new `continueFlag`. -/
def loopIteration (i : IterInput) (c0 : Camera) : Bool × Camera × List Event :=
  let c := { c0 with m_wait_flag := c0.m_wait_flag || i.stopRequested }
  if c.m_wait_flag then (false, c, [])
  else
    let c1 := c.setStatus Status.Exposure false
    let r : Bool × Camera × List Event :=
      if i.waitOk then frameReceived i c1
      else (true, c1, [Event.TUCAM_Buf_WaitForFrame false])
    (r.1, updateFps i.delta_fps r.2.1, r.2.2)

/-- The capture loop (lines 378-458). The environment's answers are consumed one per pass;
`none` means that the loop is still running when the answers are used up. -/
def captureLoop : List IterInput → Bool → Camera → Option (Camera × List Event)
  | [], continueFlag, c => if loopCond continueFlag c then none else some (c, [])
  | i :: rest, continueFlag, c =>
    if loopCond continueFlag c then
      let r := loopIteration i c
      (captureLoop rest r.1 r.2.1).map (fun out => (out.1, r.2.2 ++ out.2))
    else some (c, [])

/-- The end of a producer run (lines 462, 473-484) around the outcome `stopped` of the
guarded `stopAcq` call: the event is signalled first, the status is set to `Ready`, the
thread parks. -/
def epilogueAround (c : Camera) (stopped : Camera × List Event) : Camera × List Event :=
  let c2 := stopped.1.setStatus Status.Ready false
  ({ c2 with m_thread_running := false, m_wait_flag := true },
    [Event.SetEvent c.m_hThdEvent] ++ stopped.2)

/-- What the producer thread does once the capture loop is over (lines 460-484): it calls
`stopAcq` on itself unless a stop was already requested. -/
def threadEpilogue (c : Camera) : Camera × List Event :=
  epilogueAround c (if !c.m_wait_flag then c.stopAcq else (c, []))

/-- One run of the producer thread, from leaving the idle wait to parking again
(lines 368-485). -/
def threadRun (inputs : List IterInput) (c : Camera) : Option (Camera × List Event) :=
  let c1 := { c with m_thread_running := true }
  (captureLoop inputs true c1).map (fun out =>
    let fin := threadEpilogue out.1
    (fin.1, [Event.cond_broadcast] ++ out.2 ++ fin.2))

/-- The sequence numbers of the "frame ready" notifications in a log, in order. -/
def notifications (log : List Event) : List Int :=
  log.filterMap (fun e => match e with
    | Event.newFrameReady n => some n
    | _ => none)

/-- Number of driver frame waits in a log. -/
def frameWaits (log : List Event) : Nat :=
  log.countP (fun e => match e with
    | Event.TUCAM_Buf_WaitForFrame _ => true
    | _ => false)

/-- Number of `TUCAM_Buf_Alloc` calls in a log. -/
def bufAllocs (log : List Event) : Nat :=
  log.countP (fun e => match e with
    | Event.TUCAM_Buf_Alloc => true
    | _ => false)

/-- Number of `TUCAM_Cap_Start` calls in a log. -/
def capStarts (log : List Event) : Nat :=
  log.countP (fun e => match e with
    | Event.TUCAM_Cap_Start _ => true
    | _ => false)

/-- Number of host buffer writes (`memcpy` into a host slot) in a log. -/
def bufferWrites (log : List Event) : Nat :=
  log.countP (fun e => match e with
    | Event.memcpy _ _ => true
    | _ => false)

/-- Number of calls in a log that abort the frame wait or release the capture session:
`TUCAM_Buf_AbortWait`, `WaitForSingleObject`, `CloseHandle`, `TUCAM_Cap_Stop`,
`TUCAM_Buf_Release`. -/
def releaseCalls (log : List Event) : Nat :=
  log.countP (fun e => match e with
    | Event.TUCAM_Buf_AbortWait => true
    | Event.WaitForSingleObject _ => true
    | Event.CloseHandle _ => true
    | Event.TUCAM_Cap_Stop => true
    | Event.TUCAM_Buf_Release => true
    | _ => false)

/-- The capture modes of the `TUCAM_Cap_Start` calls in a log, in order. -/
def capStartModes (log : List Event) : List CaptureMode :=
  log.filterMap (fun e => match e with
    | Event.TUCAM_Cap_Start m => some m
    | _ => none)

/-- Number of Trigger Timer starts in a log. -/
def timerStarts (log : List Event) : Nat :=
  log.countP (fun e => match e with
    | Event.timer_start => true
    | _ => false)

/-- Number of `TUCAM_Cap_SetTrigger` calls in a log. -/
def triggerCommands (log : List Event) : Nat :=
  log.countP (fun e => match e with
    | Event.TUCAM_Cap_SetTrigger _ => true
    | _ => false)

/-- The host buffer indices asked with `getFrameBufferPtr` in a log, in order. -/
def bufferSlots (log : List Event) : List Int :=
  log.filterMap (fun e => match e with
    | Event.getFrameBufferPtr n => some n
    | _ => none)

/-- The frame copies of a log, in order: host buffer index written and image data
written. -/
def copies (log : List Event) : List (Int × Nat) :=
  log.filterMap (fun e => match e with
    | Event.memcpy slot data => some (slot, data)
    | _ => none)

/-- The arguments of the `usleep` calls in a log, in order. -/
def sleeps (log : List Event) : List Nat :=
  log.filterMap (fun e => match e with
    | Event.usleep us => some us
    | _ => none)

/-- Total time slept in a log, in microseconds. -/
def sleptMicroseconds (log : List Event) : Nat :=
  (sleeps log).sum

/-- The property values sent to the device in a log, in order. -/
def propWrites (log : List Event) : List (PropId × Rat) :=
  log.filterMap (fun e => match e with
    | Event.TUCAM_Prop_SetValue id v _ => some (id, v)
    | _ => none)

/-- A driver that stores the property values written to it: the value it holds for `id`
after the calls of a log is the value of the last successful write, on top of `held`. -/
def driverValue (id : PropId) (held : Option Rat) (log : List Event) : Option Rat :=
  log.foldl (fun acc e => match e with
    | Event.TUCAM_Prop_SetValue id2 v true => if id2 = id then some v else acc
    | _ => acc) held

/-- The integers `a, a + 1, ..., a + k - 1`. -/
def seqFrom (a : Int) (k : Nat) : List Int :=
  (List.range k).map (fun (j : Nat) => a + (j : Int))

/-- The capture loop as far as the given answers take it: the passes run stop when the
loop condition fails or when the answers are used up. Returns `continueFlag`, the members
and the calls issued so far. -/
def captureTrace : List IterInput → Bool → Camera → Bool × Camera × List Event
  | [], continueFlag, c => (continueFlag, c, [])
  | i :: rest, continueFlag, c =>
    if loopCond continueFlag c then
      let r := loopIteration i c
      let t := captureTrace rest r.1 r.2.1
      (t.1, t.2.1, r.2.2 ++ t.2.2)
    else (continueFlag, c, [])

/-- The states the camera goes through from construction on, under the lifecycle
operations and the steps of the producer thread. -/
inductive Reachable : Camera → Prop where
  | ctor (timer_period_ms : Nat) (u : Camera) : Reachable (Camera.ctor timer_period_ms u)
  | prepareAcq (env : PrepareEnv) (c : Camera) : Reachable c → Reachable (c.prepareAcq env).1
  | startAcq (c : Camera) : Reachable c → Reachable c.startAcq.1
  | stopAcq (c : Camera) : Reachable c → Reachable c.stopAcq.1
  | threadStart (c : Camera) : Reachable c → Reachable { c with m_thread_running := true }
  | loopPass (i : IterInput) (c : Camera) : Reachable c → Reachable (loopIteration i c).2.1
  | threadEnd (c : Camera) : Reachable c → Reachable (threadEpilogue c).1

/-- The producer thread acknowledges a start (lines 368-370), as at the head of
`threadRun`. -/
def Camera.threadStart (c : Camera) : Camera :=
  { c with m_thread_running := true }

/-- The calls issued by the capture loop of the run begun by `startAcq` in state `c0`, as
far as the given answers take it. -/
def runLog (c0 : Camera) (inputs : List IterInput) : List Event :=
  (captureTrace inputs true c0.startAcq.1.threadStart).2.2

/-! ## Control thread and producer thread as atomic steps -/

/-- A camera as the constructor leaves it, with a two-frame request. -/
def readyCamera : Camera :=
  Camera.ctor 10
    { m_depth := 0, m_trigger_mode := TrigMode.IntTrig, m_status := Status.Ready,
      m_acq_frame_nb := 0, m_nb_frames := 2, m_exp_time := 1, m_lat_time := 0,
      m_temperature_target := 0, m_timer_period_ms := 0, m_fps := 0, m_bin := (1, 1),
      m_wait_flag := true, m_quit := false, m_thread_running := false, m_hThdEvent := NULL,
      m_frame := ⟨NULL, FrameFormat.TUFRM_FMT_RAW, 1, 0, 0⟩ }

/-- The same camera after a supervising layer has latched `Fault`. -/
def faultCamera : Camera :=
  readyCamera.setStatus Status.Fault false

/-- A camera whose producer thread has just acknowledged a start: armed with event
handle 7, two frames requested. -/
def runningCamera : Camera :=
  { (readyCamera.prepareAcq ⟨4096, 7⟩).1.startAcq.1 with m_thread_running := true }

/-- The running camera with three frames requested and half a second of latency. -/
def pacedCamera : Camera :=
  { runningCamera with m_nb_frames := 3, m_lat_time := 1 / 2 }

/-- The running camera with an unlimited request (`number_of_frames = 0`). -/
def unlimitedCamera : Camera :=
  { runningCamera with m_nb_frames := 0 }

/-- An input ends the capture loop when it carries a stop request, or a successful wait
whose notification the host answers with "stop". -/
def IterInput.endsLoop (i : IterInput) : Bool :=
  i.stopRequested || (i.waitOk && !i.hostContinue)

/-- A successful frame wait on which the host answers "continue". -/
def frameOk : IterInput :=
  ⟨false, true, 0, 5, true, 1⟩

/-- A failed frame wait. -/
def frameKo : IterInput :=
  ⟨false, false, 0, 0, true, 1⟩

/-- A successful frame wait on which the host answers "stop". -/
def frameHostStop : IterInput :=
  ⟨false, true, 0, 5, false, 1⟩

/-- A pass that observes a stop request of the control thread. -/
def stopSeen : IterInput :=
  ⟨true, false, 0, 0, true, 1⟩

end Dhyana

namespace Dhyana

/-! ## Status model: `setStatus` -/

theorem setStatus_status (c : Camera) (s : Status) (force : Bool) :
    (c.setStatus s force).m_status =
      if force = true ∨ c.m_status ≠ Status.Fault then s else c.m_status := by
  unfold Camera.setStatus
  by_cases hf : force = true <;> by_cases hc : c.m_status = Status.Fault <;> simp [hf, hc]

theorem setStatus_frame (c : Camera) (s : Status) (force : Bool) :
    c.setStatus s force = { c with m_status := (c.setStatus s force).m_status } := by
  unfold Camera.setStatus
  split <;> rfl

theorem setStatus_not_fault (c : Camera) (s : Status) (force : Bool)
    (hs : s ≠ Status.Fault) (hc : c.m_status ≠ Status.Fault) :
    (c.setStatus s force).m_status ≠ Status.Fault := by
  rw [setStatus_status]
  split <;> assumption

/-- C5. `setStatus(newStatus, force)` writes the new status when `force` is set or the
current status is not `Fault`, keeps the current status otherwise, and changes no other
member; `Fault` then a non-forced `Ready` stays `Fault`, a forced `Ready` clears it. -/
theorem setStatus_contract (c : Camera) (s : Status) (force : Bool) :
    ((c.setStatus s force).m_status =
        if force = true ∨ c.m_status ≠ Status.Fault then s else c.m_status) ∧
    c.setStatus s force = { c with m_status := (c.setStatus s force).m_status } ∧
    (((c.setStatus Status.Fault false).setStatus Status.Ready false).m_status
        = Status.Fault) ∧
    ((((c.setStatus Status.Fault false).setStatus Status.Ready false).setStatus
        Status.Ready true).m_status = Status.Ready) := by
  refine ⟨setStatus_status c s force, setStatus_frame c s force, ?_, ?_⟩
  · simp [setStatus_status]
  · simp [setStatus_status]

/-! ## `stopAcq` -/

/-- The state after `stopAcq`, member by member. -/
theorem stopAcq_state (c : Camera) :
    c.stopAcq.1 =
      { c with
        m_wait_flag := c.m_wait_flag || c.m_thread_running
        m_hThdEvent := NULL
        m_status := if c.m_status = Status.Fault then Status.Fault else Status.Ready } := by
  obtain ⟨d, tm, st, acq, nb, ex, lat, tt, tp, fps, bin, wf, q, tr, h, fr⟩ := c
  unfold Camera.stopAcq Camera.setStatus
  by_cases h1 : tr = true <;> by_cases h2 : h = 0 <;> by_cases h3 : st = Status.Fault <;>
    simp [h1, h2, h3, NULL]

theorem stopAcq_status (c : Camera) :
    c.stopAcq.1.m_status = if c.m_status = Status.Fault then Status.Fault else Status.Ready := by
  rw [stopAcq_state]

theorem stopAcq_handle (c : Camera) : c.stopAcq.1.m_hThdEvent = NULL := by
  rw [stopAcq_state]

theorem stopAcq_trigger_mode (c : Camera) : c.stopAcq.1.m_trigger_mode = c.m_trigger_mode := by
  rw [stopAcq_state]

theorem stopAcq_no_release (c : Camera) (h : c.m_hThdEvent = NULL) :
    releaseCalls c.stopAcq.2 = 0 := by
  unfold Camera.stopAcq releaseCalls
  by_cases h1 : c.m_thread_running = true <;>
    by_cases h3 : c.m_trigger_mode = TrigMode.IntTrig <;> simp [h1, h, h3]

theorem stopAcq_idem (c : Camera) : c.stopAcq.1.stopAcq.1 = c.stopAcq.1 := by
  rw [stopAcq_state c.stopAcq.1, stopAcq_state c]
  by_cases h3 : c.m_status = Status.Fault <;> simp [h3]

/-- C6, the claim as stated fails: a camera whose status is `Fault` is still in `Fault`
after `stopAcq`, because the final `setStatus(Ready, false)` is not forced. -/
theorem stopAcq_keeps_fault :
    faultCamera.m_status = Status.Fault ∧ faultCamera.stopAcq.1.m_status ≠ Status.Ready := by
  decide

/-- C6, amended. After `stopAcq` the status is `Ready` unless it was `Fault` before the
call, in which case it is still `Fault`. -/
theorem stopAcq_final_status (c : Camera) :
    c.stopAcq.1.m_status = if c.m_status = Status.Fault then Status.Fault else Status.Ready :=
  stopAcq_status c

/-- C8. `stopAcq` has no error outcome (it is a total function of the state). After any
`stopAcq` the wait handle is unset; a `stopAcq` entered with the wait handle unset (never
armed, or a second stop in a row) issues no abort-wait, handle wait, handle close,
capture-stop or buffer-release call, and the second of two stops in a row leaves the state
as the first one left it. -/
theorem stopAcq_idempotent (c : Camera) :
    c.stopAcq.1.m_hThdEvent = NULL ∧
    (c.m_hThdEvent = NULL → releaseCalls c.stopAcq.2 = 0) ∧
    releaseCalls c.stopAcq.1.stopAcq.2 = 0 ∧
    c.stopAcq.1.stopAcq.1 = c.stopAcq.1 :=
  ⟨stopAcq_handle c, stopAcq_no_release c,
    stopAcq_no_release _ (stopAcq_handle c), stopAcq_idem c⟩

/-- C8 at the armed, running camera: the first stop releases the session (five calls), the
second one issues none. -/
theorem stopAcq_idempotent_witness :
    releaseCalls runningCamera.stopAcq.2 = 5 ∧
    runningCamera.stopAcq.1.m_hThdEvent = NULL ∧
    (runningCamera.m_hThdEvent = NULL → releaseCalls runningCamera.stopAcq.2 = 0) ∧
    releaseCalls runningCamera.stopAcq.1.stopAcq.2 = 0 ∧
    runningCamera.stopAcq.1.stopAcq.1 = runningCamera.stopAcq.1 :=
  ⟨by decide, stopAcq_idempotent runningCamera⟩

/-! ## `prepareAcq` and `startAcq` -/

/-- The supported trigger modes are exactly the three that `prepareAcq` starts a capture
for. -/
theorem capStartEvents_supported (m : TrigMode) (h : checkTrigMode m = true) :
    capStarts (capStartEvents m) = 1 ∧ bufAllocs (capStartEvents m) = 0 := by
  cases m <;> simp [checkTrigMode] at h <;> simp [capStartEvents, capStarts, bufAllocs]

/-- The constructor leaves a supported trigger mode. -/
theorem ctor_trigger_mode (t : Nat) (u : Camera) :
    checkTrigMode (Camera.ctor t u).m_trigger_mode = true := by
  simp [Camera.ctor, checkTrigMode]

/-- `setTrigMode` keeps the stored mode a supported one: it stores a supported mode or
throws with the stored mode untouched. -/
theorem setTrigMode_trigger_mode (m : TrigMode) (c : Camera)
    (h : checkTrigMode c.m_trigger_mode = true) :
    checkTrigMode (c.setTrigMode m).cam.m_trigger_mode = true := by
  cases m <;> simp only [Camera.setTrigMode] <;> first | exact h | rfl

theorem prepareAcq_status (env : PrepareEnv) (c : Camera) :
    (c.prepareAcq env).1.m_status =
      if c.m_status = Status.Fault then Status.Fault else Status.Exposure := by
  unfold Camera.prepareAcq Camera.setStatus
  by_cases h2 : c.m_hThdEvent = NULL <;> by_cases h3 : c.m_status = Status.Fault <;>
    simp [h2, h3]

theorem prepareAcq_trigger_mode (env : PrepareEnv) (c : Camera) :
    (c.prepareAcq env).1.m_trigger_mode = c.m_trigger_mode := by
  unfold Camera.prepareAcq Camera.setStatus
  by_cases h2 : c.m_hThdEvent = NULL <;> by_cases h3 : c.m_status = Status.Fault <;>
    simp [h2, h3]

theorem bufAllocs_append (l1 l2 : List Event) :
    bufAllocs (l1 ++ l2) = bufAllocs l1 + bufAllocs l2 := by
  simp [bufAllocs, List.countP_append]

theorem capStarts_append (l1 l2 : List Event) :
    capStarts (l1 ++ l2) = capStarts l1 + capStarts l2 := by
  simp [capStarts, List.countP_append]

/-- The calls issued by `prepareAcq` when it arms the device. -/
theorem prepareAcq_log_unset (env : PrepareEnv) (c : Camera) (h : c.m_hThdEvent = NULL) :
    (c.prepareAcq env).2 =
      [Event.TUCAM_Buf_Alloc] ++ capStartEvents c.m_trigger_mode ++ [Event.CreateEvent] ++
        (if c.m_trigger_mode = TrigMode.IntTrig then [Event.timer_start] else []) := by
  unfold Camera.prepareAcq Camera.setStatus
  by_cases h3 : c.m_status = Status.Fault <;> simp [h, h3]

theorem prepareAcq_handle_unset (env : PrepareEnv) (c : Camera) (h : c.m_hThdEvent = NULL) :
    (c.prepareAcq env).1.m_hThdEvent = env.newEvent := by
  unfold Camera.prepareAcq Camera.setStatus
  by_cases h3 : c.m_status = Status.Fault <;> simp [h, h3]

theorem prepareAcq_unset (env : PrepareEnv) (c : Camera)
    (hmode : checkTrigMode c.m_trigger_mode = true) (h : c.m_hThdEvent = NULL) :
    bufAllocs (c.prepareAcq env).2 = 1 ∧ capStarts (c.prepareAcq env).2 = 1 ∧
      (c.prepareAcq env).1.m_hThdEvent = env.newEvent := by
  obtain ⟨hc1, hc2⟩ := capStartEvents_supported c.m_trigger_mode hmode
  have ht1 : bufAllocs (if c.m_trigger_mode = TrigMode.IntTrig then [Event.timer_start]
      else []) = 0 := by
    split <;> rfl
  have ht2 : capStarts (if c.m_trigger_mode = TrigMode.IntTrig then [Event.timer_start]
      else []) = 0 := by
    split <;> rfl
  have ha1 : bufAllocs [Event.TUCAM_Buf_Alloc] = 1 := rfl
  have ha2 : capStarts [Event.TUCAM_Buf_Alloc] = 0 := rfl
  have he1 : bufAllocs [Event.CreateEvent] = 0 := rfl
  have he2 : capStarts [Event.CreateEvent] = 0 := rfl
  refine ⟨?_, ?_, prepareAcq_handle_unset env c h⟩
  · rw [prepareAcq_log_unset env c h, bufAllocs_append, bufAllocs_append, bufAllocs_append,
      ha1, hc2, he1, ht1]
  · rw [prepareAcq_log_unset env c h, capStarts_append, capStarts_append, capStarts_append,
      ha2, hc1, he2, ht2]

theorem prepareAcq_set (env : PrepareEnv) (c : Camera) (h : c.m_hThdEvent ≠ NULL) :
    bufAllocs (c.prepareAcq env).2 = 0 ∧ capStarts (c.prepareAcq env).2 = 0 ∧
      (c.prepareAcq env).1.m_hThdEvent = c.m_hThdEvent := by
  unfold Camera.prepareAcq Camera.setStatus bufAllocs capStarts
  by_cases h3 : c.m_status = Status.Fault <;>
    by_cases h4 : c.m_trigger_mode = TrigMode.IntTrig <;> simp [h, h3, h4]

/-- C9. With a supported trigger mode stored (as the constructor and `setTrigMode`
guarantee) and a `CreateEvent` that returns a handle: when the wait handle is unset,
`prepareAcq` issues exactly one buffer allocation and one capture start and sets the wait
handle; when it is set, it issues neither and keeps the handle; so a second `prepareAcq`
in a row allocates nothing. -/
theorem prepareAcq_allocates_once (env env2 : PrepareEnv) (c : Camera)
    (hmode : checkTrigMode c.m_trigger_mode = true) (hev : env.newEvent ≠ NULL) :
    (c.m_hThdEvent = NULL →
      bufAllocs (c.prepareAcq env).2 = 1 ∧ capStarts (c.prepareAcq env).2 = 1 ∧
      (c.prepareAcq env).1.m_hThdEvent = env.newEvent ∧
      (c.prepareAcq env).1.m_hThdEvent ≠ NULL) ∧
    (c.m_hThdEvent ≠ NULL →
      bufAllocs (c.prepareAcq env).2 = 0 ∧ capStarts (c.prepareAcq env).2 = 0 ∧
      (c.prepareAcq env).1.m_hThdEvent = c.m_hThdEvent) ∧
    (c.m_hThdEvent = NULL →
      bufAllocs ((c.prepareAcq env).1.prepareAcq env2).2 = 0 ∧
      capStarts ((c.prepareAcq env).1.prepareAcq env2).2 = 0 ∧
      ((c.prepareAcq env).1.prepareAcq env2).1.m_hThdEvent
        = (c.prepareAcq env).1.m_hThdEvent) := by
  refine ⟨fun h => ?_, fun h => prepareAcq_set env c h, fun h => ?_⟩
  · obtain ⟨h1, h2, h3⟩ := prepareAcq_unset env c hmode h
    exact ⟨h1, h2, h3, by rw [h3]; exact hev⟩
  · apply prepareAcq_set
    rw [(prepareAcq_unset env c hmode h).2.2]
    exact hev

/-- C9 at the camera left by the constructor. -/
theorem prepareAcq_allocates_once_witness :
    (readyCamera.m_hThdEvent = NULL →
      bufAllocs (readyCamera.prepareAcq ⟨4096, 7⟩).2 = 1 ∧
      capStarts (readyCamera.prepareAcq ⟨4096, 7⟩).2 = 1 ∧
      (readyCamera.prepareAcq ⟨4096, 7⟩).1.m_hThdEvent = 7 ∧
      (readyCamera.prepareAcq ⟨4096, 7⟩).1.m_hThdEvent ≠ NULL) ∧
    (readyCamera.m_hThdEvent ≠ NULL →
      bufAllocs (readyCamera.prepareAcq ⟨4096, 7⟩).2 = 0 ∧
      capStarts (readyCamera.prepareAcq ⟨4096, 7⟩).2 = 0 ∧
      (readyCamera.prepareAcq ⟨4096, 7⟩).1.m_hThdEvent = readyCamera.m_hThdEvent) ∧
    (readyCamera.m_hThdEvent = NULL →
      bufAllocs ((readyCamera.prepareAcq ⟨4096, 7⟩).1.prepareAcq ⟨8192, 9⟩).2 = 0 ∧
      capStarts ((readyCamera.prepareAcq ⟨4096, 7⟩).1.prepareAcq ⟨8192, 9⟩).2 = 0 ∧
      ((readyCamera.prepareAcq ⟨4096, 7⟩).1.prepareAcq ⟨8192, 9⟩).1.m_hThdEvent
        = (readyCamera.prepareAcq ⟨4096, 7⟩).1.m_hThdEvent) :=
  prepareAcq_allocates_once ⟨4096, 7⟩ ⟨8192, 9⟩ readyCamera (by decide) (by decide)

theorem startAcq_status (c : Camera) :
    c.startAcq.1.m_status =
      if c.m_status = Status.Fault then Status.Fault else Status.Exposure := by
  unfold Camera.startAcq Camera.setStatus
  by_cases h3 : c.m_status = Status.Fault <;> simp [h3]

/-- C10. Whatever the state before the call, `startAcq` hands over to the producer thread
with the acquired-frame counter at 0, the frame rate at 0 and the stop flag cleared, and
with trigger mode, number of frames, exposure time and latency time as they were. -/
theorem startAcq_resets (c : Camera) :
    c.startAcq.1.m_acq_frame_nb = 0 ∧
    c.startAcq.1.m_fps = 0 ∧
    c.startAcq.1.m_wait_flag = false ∧
    c.startAcq.1.m_trigger_mode = c.m_trigger_mode ∧
    c.startAcq.1.m_nb_frames = c.m_nb_frames ∧
    c.startAcq.1.m_exp_time = c.m_exp_time ∧
    c.startAcq.1.m_lat_time = c.m_lat_time ∧
    c.startAcq.2 = [Event.setStartTimestamp, Event.cond_broadcast, Event.cond_wait] := by
  unfold Camera.startAcq Camera.setStatus
  by_cases h3 : c.m_status = Status.Fault <;> simp [h3]

/-! ## Producer loop: one pass -/

theorem notifications_append (l1 l2 : List Event) :
    notifications (l1 ++ l2) = notifications l1 ++ notifications l2 := by
  simp [notifications, List.filterMap_append]

theorem frameWaits_append (l1 l2 : List Event) :
    frameWaits (l1 ++ l2) = frameWaits l1 + frameWaits l2 := by
  simp [frameWaits, List.countP_append]

/-- A pass that observes a stop request does nothing but clear `continueFlag`. -/
theorem loopIteration_stop (i : IterInput) (c : Camera)
    (h : (c.m_wait_flag || i.stopRequested) = true) :
    loopIteration i c
      = (false, { c with m_wait_flag := c.m_wait_flag || i.stopRequested }, []) := by
  unfold loopIteration
  simp [h]

/-- A pass that observes no stop request: the frame wait, then the frame-rate update. -/
theorem loopIteration_run (i : IterInput) (c : Camera)
    (hwf : c.m_wait_flag = false) (hs : i.stopRequested = false) :
    loopIteration i c =
      if i.waitOk = true then
        ((frameReceived i (c.setStatus Status.Exposure false)).1,
          updateFps i.delta_fps (frameReceived i (c.setStatus Status.Exposure false)).2.1,
          (frameReceived i (c.setStatus Status.Exposure false)).2.2)
      else
        (true, updateFps i.delta_fps (c.setStatus Status.Exposure false),
          [Event.TUCAM_Buf_WaitForFrame false]) := by
  obtain ⟨d, tm, st, acq, nb, ex, lat, tt, tp, fps, bin, wf, q, tr, h, fr⟩ := c
  simp only at hwf
  subst hwf
  unfold loopIteration
  by_cases hok : i.waitOk = true <;> simp [hs, hok, Camera.setStatus]

/-- What a pass with a successful wait does to the members and the log. -/
theorem loopIteration_ok (i : IterInput) (c : Camera)
    (hwf : c.m_wait_flag = false) (hs : i.stopRequested = false) (hok : i.waitOk = true) :
    (loopIteration i c).1 = i.hostContinue ∧
    (loopIteration i c).2.1.m_acq_frame_nb = c.m_acq_frame_nb + 1 ∧
    (loopIteration i c).2.1.m_nb_frames = c.m_nb_frames ∧
    (loopIteration i c).2.1.m_wait_flag = false ∧
    (loopIteration i c).2.1.m_status
      = (if c.m_status = Status.Fault then Status.Fault else Status.Readout) ∧
    notifications (loopIteration i c).2.2 = [c.m_acq_frame_nb] ∧
    frameWaits (loopIteration i c).2.2 = 1 := by
  rw [loopIteration_run i c hwf hs]
  simp only [hok, if_true]
  unfold frameReceived updateFps Camera.setStatus notifications frameWaits
  by_cases h3 : c.m_status = Status.Fault <;> by_cases h4 : 0 < i.delta_fps <;>
    simp [h3, h4, hwf]

/-- What a pass with a failed wait does to the members and the log. -/
theorem loopIteration_ko (i : IterInput) (c : Camera)
    (hwf : c.m_wait_flag = false) (hs : i.stopRequested = false) (hko : i.waitOk = false) :
    (loopIteration i c).1 = true ∧
    (loopIteration i c).2.1.m_acq_frame_nb = c.m_acq_frame_nb ∧
    (loopIteration i c).2.1.m_nb_frames = c.m_nb_frames ∧
    (loopIteration i c).2.1.m_wait_flag = false ∧
    (loopIteration i c).2.1.m_status
      = (if c.m_status = Status.Fault then Status.Fault else Status.Exposure) ∧
    (loopIteration i c).2.2 = [Event.TUCAM_Buf_WaitForFrame false] := by
  rw [loopIteration_run i c hwf hs]
  simp only [hko, Bool.false_eq_true, if_false]
  unfold updateFps Camera.setStatus
  by_cases h3 : c.m_status = Status.Fault <;> by_cases h4 : 0 < i.delta_fps <;>
    simp [h3, h4, hwf]

/-! ## Producer loop: the whole loop -/

theorem isSome_map_eq {α β : Type} (f : α → β) (o : Option α) :
    (o.map f).isSome = o.isSome := by
  cases o <;> rfl

/-- Unfolding of the capture loop on a non-empty input when the loop condition holds. -/
theorem captureLoop_cons (i : IterInput) (rest : List IterInput) (cf : Bool) (c : Camera)
    (h : loopCond cf c = true) :
    captureLoop (i :: rest) cf c =
      (captureLoop rest (loopIteration i c).1 (loopIteration i c).2.1).map
        (fun out => (out.1, (loopIteration i c).2.2 ++ out.2)) := by
  simp [captureLoop, h]

/-- The capture loop is over as soon as its condition fails. -/
theorem captureLoop_exit (inputs : List IterInput) (cf : Bool) (c : Camera)
    (h : loopCond cf c = false) : captureLoop inputs cf c = some (c, []) := by
  cases inputs <;> simp [captureLoop, h]

/-- With a positive frame count, no stop request and a host that always answers
"continue", the loop exits exactly when enough waits succeed, and it exits with the
counter at the frame count after one notification for each missing frame. -/
theorem captureLoop_counted (N : Int) (hN : 0 < N) :
    ∀ (inputs : List IterInput) (c : Camera),
      c.m_nb_frames = N → c.m_acq_frame_nb ≤ N → c.m_wait_flag = false →
      (∀ i ∈ inputs, i.stopRequested = false) → (∀ i ∈ inputs, i.hostContinue = true) →
      ((captureLoop inputs true c).isSome = true ↔
          N - c.m_acq_frame_nb ≤ (inputs.countP (fun i => i.waitOk) : Int)) ∧
      ∀ out, captureLoop inputs true c = some out →
        out.1.m_acq_frame_nb = N ∧ out.1.m_wait_flag = false ∧
        ((notifications out.2).length : Int) = N - c.m_acq_frame_nb := by
  intro inputs
  induction inputs with
  | nil =>
    intro c hnb hle hwf _ _
    have hN0 : N ≠ 0 := by omega
    by_cases hlt : c.m_acq_frame_nb < N
    · have hcond : loopCond true c = true := by simp [loopCond, hnb, hlt]
      simp [captureLoop, hcond]
      omega
    · have hcond : loopCond true c = false := by simp [loopCond, hnb, hlt, hN0]
      simp [captureLoop, hcond, notifications]
      exact ⟨by omega, by omega, hwf, by omega⟩
  | cons i rest ih =>
    intro c hnb hle hwf hstop hhost
    have hs : i.stopRequested = false := hstop i (List.mem_cons_self _ _)
    have hh : i.hostContinue = true := hhost i (List.mem_cons_self _ _)
    have hstop2 : ∀ j ∈ rest, j.stopRequested = false :=
      fun j hj => hstop j (List.mem_cons_of_mem _ hj)
    have hhost2 : ∀ j ∈ rest, j.hostContinue = true :=
      fun j hj => hhost j (List.mem_cons_of_mem _ hj)
    have hN0 : N ≠ 0 := by omega
    by_cases hlt : c.m_acq_frame_nb < N
    · have hcond : loopCond true c = true := by simp [loopCond, hnb, hlt]
      rw [captureLoop_cons i rest true c hcond]
      by_cases hok : i.waitOk = true
      · obtain ⟨h1, h2, h3, h4, _, h6, _⟩ := loopIteration_ok i c hwf hs hok
        rw [h1, hh]
        obtain ⟨ihex, ihout⟩ :=
          ih (loopIteration i c).2.1 (by rw [h3, hnb]) (by rw [h2]; omega) h4 hstop2 hhost2
        constructor
        · rw [isSome_map_eq, ihex, h2]
          simp [List.countP_cons, hok]
          omega
        · intro out hout
          rw [Option.map_eq_some'] at hout
          obtain ⟨o, ho, rfl⟩ := hout
          obtain ⟨g1, g2, g3⟩ := ihout o ho
          refine ⟨g1, g2, ?_⟩
          simp only [notifications_append, List.length_append, h6, List.length_singleton]
          rw [h2] at g3
          push_cast
          omega
      · have hko : i.waitOk = false := by simpa using hok
        obtain ⟨h1, h2, h3, h4, _, h6⟩ := loopIteration_ko i c hwf hs hko
        rw [h1]
        obtain ⟨ihex, ihout⟩ :=
          ih (loopIteration i c).2.1 (by rw [h3, hnb]) (by rw [h2]; omega) h4 hstop2 hhost2
        constructor
        · rw [isSome_map_eq, ihex, h2]
          simp [List.countP_cons, hko]
        · intro out hout
          rw [Option.map_eq_some'] at hout
          obtain ⟨o, ho, rfl⟩ := hout
          obtain ⟨g1, g2, g3⟩ := ihout o ho
          refine ⟨g1, g2, ?_⟩
          rw [h2] at g3
          simp only [notifications_append, List.length_append, h6]
          simpa [notifications] using g3
    · have hcond : loopCond true c = false := by simp [loopCond, hnb, hlt, hN0]
      rw [captureLoop_exit _ true c hcond]
      simp [notifications]
      exact ⟨by omega, by omega, hwf, by omega⟩

/-- C1. With `number_of_frames = N > 0`, the counter at 0, no stop request ever observed
and a host that answers "continue" to every notification: the loop exits exactly on the
sequences of wait results that hold at least `N` successes, and whenever it exits exactly
`N` "frame ready" notifications have been emitted, the counter equals `N`, the stop flag is
still clear, and the thread epilogue is the one that calls `stopAcq`. -/
theorem frame_limit (N : Nat) (hN : 0 < N) (c : Camera) (inputs : List IterInput)
    (hacq : c.m_acq_frame_nb = 0) (hnb : c.m_nb_frames = (N : Int))
    (hwf : c.m_wait_flag = false)
    (hstop : ∀ i ∈ inputs, i.stopRequested = false)
    (hhost : ∀ i ∈ inputs, i.hostContinue = true) :
    ((captureLoop inputs true c).isSome = true ↔ N ≤ inputs.countP (fun i => i.waitOk)) ∧
    ∀ out, captureLoop inputs true c = some out →
      (notifications out.2).length = N ∧
      out.1.m_acq_frame_nb = (N : Int) ∧
      out.1.m_wait_flag = false ∧
      threadEpilogue out.1 = epilogueAround out.1 out.1.stopAcq := by
  have hN2 : (0 : Int) < (N : Int) := by exact_mod_cast hN
  obtain ⟨hex, hout⟩ :=
    captureLoop_counted (N : Int) hN2 inputs c hnb (by rw [hacq]; omega) hwf hstop hhost
  rw [hacq] at hex hout
  constructor
  · rw [hex]
    simp
  · intro out ho
    obtain ⟨g1, g2, g3⟩ := hout out ho
    refine ⟨?_, g1, g2, ?_⟩
    · have : ((notifications out.2).length : Int) = (N : Int) := by simpa using g3
      exact_mod_cast this
    · simp [threadEpilogue, g2]

/-- C1 at the running two-frame camera with a failed wait between the two frames: the
loop exits after two notifications. -/
theorem frame_limit_witness :
    captureLoop [frameOk, frameKo, frameOk] true runningCamera ≠ none ∧
    (((captureLoop [frameOk, frameKo, frameOk] true runningCamera).isSome = true ↔
        2 ≤ [frameOk, frameKo, frameOk].countP (fun i => i.waitOk)) ∧
      ∀ out, captureLoop [frameOk, frameKo, frameOk] true runningCamera = some out →
        (notifications out.2).length = 2 ∧
        out.1.m_acq_frame_nb = ((2 : Nat) : Int) ∧
        out.1.m_wait_flag = false ∧
        threadEpilogue out.1 = epilogueAround out.1 out.1.stopAcq) :=
  ⟨by decide,
    frame_limit 2 (by decide) runningCamera [frameOk, frameKo, frameOk] (by decide)
      (by decide) (by decide) (by decide) (by decide)⟩

/-! ## Unlimited mode and the host's stop indication -/

/-- With `number_of_frames = 0` and the stop flag clear at entry, the loop exits exactly
on the input sequences that hold an input ending the loop. -/
theorem captureLoop_unlimited :
    ∀ (inputs : List IterInput) (c : Camera),
      c.m_nb_frames = 0 → c.m_wait_flag = false →
      ((captureLoop inputs true c).isSome = true ↔ ∃ i ∈ inputs, i.endsLoop = true) := by
  intro inputs
  induction inputs with
  | nil =>
    intro c hnb hwf
    simp [captureLoop, loopCond, hnb]
  | cons i rest ih =>
    intro c hnb hwf
    have hcond : loopCond true c = true := by simp [loopCond, hnb]
    rw [captureLoop_cons i rest true c hcond, isSome_map_eq]
    by_cases hs : i.stopRequested = true
    · rw [loopIteration_stop i c (by simp [hs])]
      rw [captureLoop_exit rest false _ (by simp [loopCond])]
      simp [IterInput.endsLoop, hs]
    · have hs2 : i.stopRequested = false := by simpa using hs
      by_cases hok : i.waitOk = true
      · obtain ⟨h1, _, h3, h4, _, _, _⟩ := loopIteration_ok i c hwf hs2 hok
        rw [h1]
        by_cases hh : i.hostContinue = true
        · rw [hh, ih _ (by rw [h3, hnb]) h4]
          simp [IterInput.endsLoop, hs2, hok, hh]
        · have hh2 : i.hostContinue = false := by simpa using hh
          rw [hh2, captureLoop_exit rest false _ (by simp [loopCond])]
          simp [IterInput.endsLoop, hs2, hok, hh2]
      · have hko : i.waitOk = false := by simpa using hok
        obtain ⟨h1, _, h3, h4, _, _⟩ := loopIteration_ko i c hwf hs2 hko
        rw [h1, ih _ (by rw [h3, hnb]) h4]
        simp [IterInput.endsLoop, hs2, hko]

/-- C2, the claim as stated fails: with `number_of_frames = 0` and no stop request at all,
the loop is over after one frame when the host answers its notification with "stop"; the
stop flag is still clear at exit. -/
theorem unlimited_host_stop :
    unlimitedCamera.m_nb_frames = 0 ∧ unlimitedCamera.m_wait_flag = false ∧
    frameHostStop.stopRequested = false ∧
    (captureLoop [frameHostStop] true unlimitedCamera).map
      (fun out => (out.1.m_wait_flag, out.1.m_acq_frame_nb)) = some (false, 1) := by
  decide

/-- C2, amended. With `number_of_frames = 0` the count condition of the loop holds for
every value of the frame counter, and the loop, entered with the stop flag clear, runs
until a stop request is observed or the host answers a notification with "stop": it exits
on exactly the input sequences that hold such an input, whatever the number of frames
produced. -/
theorem unlimited_mode (c : Camera) (inputs : List IterInput)
    (hnb : c.m_nb_frames = 0) (hwf : c.m_wait_flag = false) :
    (∀ k : Int, loopCond true { c with m_acq_frame_nb := k } = true) ∧
    ((captureLoop inputs true c).isSome = true ↔
      ∃ i ∈ inputs, i.stopRequested = true ∨ (i.waitOk = true ∧ i.hostContinue = false)) := by
  constructor
  · intro k
    simp [loopCond, hnb]
  · rw [captureLoop_unlimited inputs c hnb hwf]
    simp [IterInput.endsLoop]

/-- C2 amended, at the unlimited camera: three frames and a failed wait do not end the
loop, the stop request after them does. -/
theorem unlimited_mode_witness :
    captureLoop [frameOk, frameOk, frameKo, frameOk] true unlimitedCamera = none ∧
    ((∀ k : Int, loopCond true { unlimitedCamera with m_acq_frame_nb := k } = true) ∧
      ((captureLoop [frameOk, frameOk, frameKo, frameOk, stopSeen] true unlimitedCamera).isSome
          = true ↔
        ∃ i ∈ [frameOk, frameOk, frameKo, frameOk, stopSeen],
          i.stopRequested = true ∨ (i.waitOk = true ∧ i.hostContinue = false))) :=
  ⟨by decide,
    unlimited_mode unlimitedCamera [frameOk, frameOk, frameKo, frameOk, stopSeen]
      (by decide) (by decide)⟩

/-- C3. Whatever the frame count (0 included) and the frame counter, a pass of the loop
whose notification the host answers with "stop" is the last one: the loop returns the
state and the calls of that pass alone (one frame wait, one notification, carrying the
old counter), with the frame counter incremented, whatever answers remain. -/
theorem host_stop_ends_loop (c : Camera) (i : IterInput) (rest : List IterInput)
    (hcond : loopCond true c = true) (hwf : c.m_wait_flag = false)
    (hs : i.stopRequested = false) (hok : i.waitOk = true)
    (hhost : i.hostContinue = false) :
    captureLoop (i :: rest) true c
      = some ((loopIteration i c).2.1, (loopIteration i c).2.2) ∧
    (loopIteration i c).1 = false ∧
    (loopIteration i c).2.1.m_acq_frame_nb = c.m_acq_frame_nb + 1 ∧
    frameWaits (loopIteration i c).2.2 = 1 ∧
    notifications (loopIteration i c).2.2 = [c.m_acq_frame_nb] := by
  obtain ⟨h1, h2, _, _, _, h6, h7⟩ := loopIteration_ok i c hwf hs hok
  rw [hhost] at h1
  refine ⟨?_, h1, h2, h7, h6⟩
  rw [captureLoop_cons i rest true c hcond, h1,
    captureLoop_exit rest false _ (by simp [loopCond])]
  simp

/-- C3 at the unlimited camera and at the two-frame camera: the answers after the host's
"stop" are not consumed. -/
theorem host_stop_ends_loop_witness :
    (captureLoop [frameHostStop, frameOk, frameOk] true runningCamera).map
        (fun out => notifications out.2) = some [0] ∧
    (captureLoop (frameHostStop :: [frameOk, frameOk]) true unlimitedCamera
        = some ((loopIteration frameHostStop unlimitedCamera).2.1,
            (loopIteration frameHostStop unlimitedCamera).2.2) ∧
      (loopIteration frameHostStop unlimitedCamera).1 = false ∧
      (loopIteration frameHostStop unlimitedCamera).2.1.m_acq_frame_nb
        = unlimitedCamera.m_acq_frame_nb + 1 ∧
      frameWaits (loopIteration frameHostStop unlimitedCamera).2.2 = 1 ∧
      notifications (loopIteration frameHostStop unlimitedCamera).2.2
        = [unlimitedCamera.m_acq_frame_nb]) :=
  ⟨by decide,
    host_stop_ends_loop unlimitedCamera frameHostStop [frameOk, frameOk]
      (by decide) (by decide) (by decide) (by decide) (by decide)⟩

/-- C4. A pass of the loop in which the frame wait fails leaves the frame counter as it
was, emits no notification, obtains and writes no host buffer (its only call is the
failed wait), leaves the status at `Exposure` unless it was `Fault`, in which case it
stays `Fault`, and the loop goes on with the next pass. -/
theorem wait_failure_continues (c : Camera) (i : IterInput) (rest : List IterInput)
    (hcond : loopCond true c = true) (hwf : c.m_wait_flag = false)
    (hs : i.stopRequested = false) (hko : i.waitOk = false) :
    (loopIteration i c).2.1.m_acq_frame_nb = c.m_acq_frame_nb ∧
    notifications (loopIteration i c).2.2 = [] ∧
    bufferWrites (loopIteration i c).2.2 = 0 ∧
    (loopIteration i c).2.2 = [Event.TUCAM_Buf_WaitForFrame false] ∧
    ((loopIteration i c).2.1.m_status
      = if c.m_status = Status.Fault then Status.Fault else Status.Exposure) ∧
    (c.m_status ≠ Status.Fault → (loopIteration i c).2.1.m_status ≠ Status.Fault) ∧
    loopCond (loopIteration i c).1 (loopIteration i c).2.1 = true ∧
    captureLoop (i :: rest) true c =
      (captureLoop rest true (loopIteration i c).2.1).map
        (fun out => (out.1, [Event.TUCAM_Buf_WaitForFrame false] ++ out.2)) := by
  obtain ⟨h1, h2, h3, _, h5, h6⟩ := loopIteration_ko i c hwf hs hko
  refine ⟨h2, ?_, ?_, h6, h5, ?_, ?_, ?_⟩
  · rw [h6]; rfl
  · rw [h6]; rfl
  · intro hnf
    rw [h5, if_neg hnf]
    decide
  · rw [h1]
    simpa [loopCond, h2, h3] using hcond
  · rw [captureLoop_cons i rest true c hcond, h1, h6]

/-- C4 at the running two-frame camera: after a failed wait the loop still delivers both
frames, numbered 0 and 1. -/
theorem wait_failure_continues_witness :
    (captureLoop [frameKo, frameOk, frameOk] true runningCamera).map
        (fun out => notifications out.2) = some [0, 1] ∧
    ((loopIteration frameKo runningCamera).2.1.m_acq_frame_nb
        = runningCamera.m_acq_frame_nb ∧
      notifications (loopIteration frameKo runningCamera).2.2 = [] ∧
      bufferWrites (loopIteration frameKo runningCamera).2.2 = 0 ∧
      (loopIteration frameKo runningCamera).2.2 = [Event.TUCAM_Buf_WaitForFrame false] ∧
      ((loopIteration frameKo runningCamera).2.1.m_status
        = if runningCamera.m_status = Status.Fault then Status.Fault else Status.Exposure) ∧
      (runningCamera.m_status ≠ Status.Fault →
        (loopIteration frameKo runningCamera).2.1.m_status ≠ Status.Fault) ∧
      loopCond (loopIteration frameKo runningCamera).1
        (loopIteration frameKo runningCamera).2.1 = true ∧
      captureLoop (frameKo :: [frameOk, frameOk]) true runningCamera =
        (captureLoop [frameOk, frameOk] true (loopIteration frameKo runningCamera).2.1).map
          (fun out => (out.1, [Event.TUCAM_Buf_WaitForFrame false] ++ out.2))) :=
  ⟨by decide,
    wait_failure_continues runningCamera frameKo [frameOk, frameOk]
      (by decide) (by decide) (by decide) (by decide)⟩

/-! ## `Fault` is never set by the core -/

theorem loopIteration_not_fault (i : IterInput) (c : Camera)
    (h : c.m_status ≠ Status.Fault) : (loopIteration i c).2.1.m_status ≠ Status.Fault := by
  by_cases hstop : (c.m_wait_flag || i.stopRequested) = true
  · rw [loopIteration_stop i c hstop]
    exact h
  · have hwf : c.m_wait_flag = false := by
      cases hw : c.m_wait_flag <;> simp [hw] at hstop ⊢
    have hs : i.stopRequested = false := by
      cases hw : i.stopRequested <;> simp [hw] at hstop ⊢
    by_cases hok : i.waitOk = true
    · rw [(loopIteration_ok i c hwf hs hok).2.2.2.2.1, if_neg h]
      decide
    · have hko : i.waitOk = false := by simpa using hok
      rw [(loopIteration_ko i c hwf hs hko).2.2.2.2.1, if_neg h]
      decide

theorem captureLoop_not_fault :
    ∀ (inputs : List IterInput) (cf : Bool) (c : Camera), c.m_status ≠ Status.Fault →
      ∀ out, captureLoop inputs cf c = some out → out.1.m_status ≠ Status.Fault := by
  intro inputs
  induction inputs with
  | nil =>
    intro cf c h out hout
    by_cases hcond : loopCond cf c = true
    · simp [captureLoop, hcond] at hout
    · simp [captureLoop, hcond] at hout
      rw [← hout]
      exact h
  | cons i rest ih =>
    intro cf c h out hout
    by_cases hcond : loopCond cf c = true
    · rw [captureLoop_cons i rest cf c hcond, Option.map_eq_some'] at hout
      obtain ⟨o, ho, rfl⟩ := hout
      exact ih _ _ (loopIteration_not_fault i c h) o ho
    · have hc2 : loopCond cf c = false := by simpa using hcond
      rw [captureLoop_exit _ cf c hc2] at hout
      simp at hout
      rw [← hout]
      exact h

theorem threadEpilogue_not_fault (c : Camera) (h : c.m_status ≠ Status.Fault) :
    (threadEpilogue c).1.m_status ≠ Status.Fault := by
  unfold threadEpilogue epilogueAround
  simp only
  have hstop : c.stopAcq.1.m_status ≠ Status.Fault := by
    rw [stopAcq_status, if_neg h]; decide
  by_cases hw : c.m_wait_flag = true
  · simp only [hw, Bool.not_true, Bool.false_eq_true, if_false]
    exact setStatus_not_fault _ _ _ (by decide) h
  · have hw2 : c.m_wait_flag = false := by simpa using hw
    simp only [hw2, Bool.not_false, if_true]
    exact setStatus_not_fault _ _ _ (by decide) hstop

/-- C7. From a status other than `Fault`, no lifecycle operation of the core leads to
`Fault`: not `prepareAcq`, `startAcq`, `stopAcq`, `reset`, not a pass of the producer loop
(stop observed, wait succeeded or wait failed), not the whole capture loop, not the
thread epilogue, not a whole producer run. -/
theorem fault_never_set (c : Camera) (h : c.m_status ≠ Status.Fault) :
    (∀ env, (c.prepareAcq env).1.m_status ≠ Status.Fault) ∧
    c.startAcq.1.m_status ≠ Status.Fault ∧
    c.stopAcq.1.m_status ≠ Status.Fault ∧
    c.reset.1.m_status ≠ Status.Fault ∧
    (∀ i, (loopIteration i c).2.1.m_status ≠ Status.Fault) ∧
    (∀ inputs cf out, captureLoop inputs cf c = some out →
      out.1.m_status ≠ Status.Fault) ∧
    (threadEpilogue c).1.m_status ≠ Status.Fault ∧
    (∀ inputs out, threadRun inputs c = some out → out.1.m_status ≠ Status.Fault) := by
  have hstop : c.stopAcq.1.m_status ≠ Status.Fault := by
    rw [stopAcq_status, if_neg h]; decide
  refine ⟨?_, ?_, hstop, hstop, fun i => loopIteration_not_fault i c h,
    fun inputs cf out => captureLoop_not_fault inputs cf c h out,
    threadEpilogue_not_fault c h, ?_⟩
  · intro env
    rw [prepareAcq_status, if_neg h]; decide
  · rw [startAcq_status, if_neg h]; decide
  · intro inputs out hout
    unfold threadRun at hout
    rw [Option.map_eq_some'] at hout
    obtain ⟨o, ho, rfl⟩ := hout
    exact threadEpilogue_not_fault _
      (captureLoop_not_fault inputs true _ (by exact h) o ho)

/-- C7 at the running camera; by contrast the latched `Fault` of `faultCamera` survives a
whole producer run. -/
theorem fault_never_set_witness :
    ((threadRun [frameKo, frameOk, frameOk] faultCamera).map (fun out => out.1.m_status)
        = some Status.Fault) ∧
    ((∀ env, (runningCamera.prepareAcq env).1.m_status ≠ Status.Fault) ∧
      runningCamera.startAcq.1.m_status ≠ Status.Fault ∧
      runningCamera.stopAcq.1.m_status ≠ Status.Fault ∧
      runningCamera.reset.1.m_status ≠ Status.Fault ∧
      (∀ i, (loopIteration i runningCamera).2.1.m_status ≠ Status.Fault) ∧
      (∀ inputs cf out, captureLoop inputs cf runningCamera = some out →
        out.1.m_status ≠ Status.Fault) ∧
      (threadEpilogue runningCamera).1.m_status ≠ Status.Fault ∧
      (∀ inputs out, threadRun inputs runningCamera = some out →
        out.1.m_status ≠ Status.Fault)) :=
  ⟨by decide, fault_never_set runningCamera (by decide)⟩

/-! ## Scalar configuration: exposure time, frame count, binning, trigger mode -/

theorem driverValue_append (id : PropId) (held : Option Rat) (l1 l2 : List Event) :
    driverValue id held (l1 ++ l2) = driverValue id (driverValue id held l1) l2 := by
  simp [driverValue, List.foldl_append]

/-- C12. With a driver that stores the written property value and returns it on read,
and over exact rational arithmetic: `setExpTime(x)` succeeds, leaves `x * 1000`
milliseconds in the driver whatever was written before, and a following `getExpTime`
returns `x` in the caller's variable and in `m_exp_time`. -/
theorem exposure_round_trip (x v : Rat) (held : Option Rat) (before : List Event)
    (c : Camera) :
    (c.setExpTime true x).thrown = none ∧
    driverValue PropId.TUIDP_EXPOSURETM held (before ++ (c.setExpTime true x).log)
      = some (x * 1000) ∧
    ((c.setExpTime true x).cam.getExpTime
      (driverValue PropId.TUIDP_EXPOSURETM held (before ++ (c.setExpTime true x).log))
      v).out = x ∧
    ((c.setExpTime true x).cam.getExpTime
      (driverValue PropId.TUIDP_EXPOSURETM held (before ++ (c.setExpTime true x).log))
      v).thrown = none ∧
    ((c.setExpTime true x).cam.getExpTime
      (driverValue PropId.TUIDP_EXPOSURETM held (before ++ (c.setExpTime true x).log))
      v).cam.m_exp_time = x := by
  have hd : driverValue PropId.TUIDP_EXPOSURETM held (before ++ (c.setExpTime true x).log)
      = some (x * 1000) := by
    rw [driverValue_append]
    simp [Camera.setExpTime, driverValue]
  have hx : x * 1000 / 1000 = x := by field_simp
  rw [hd]
  refine ⟨by simp [Camera.setExpTime], rfl, ?_, ?_, ?_⟩ <;>
    simp [Camera.getExpTime, hx]

/-- C14. `setNbFrames(n)` with `n < 0` throws and leaves every member, the stored frame
count included, as it was; with `n ≥ 0` (0 included) it succeeds and a following
`getNbFrames` returns `n`. -/
theorem setNbFrames_contract (n v : Int) (c : Camera) :
    (n < 0 →
      (c.setNbFrames n).thrown
        = some (HwError.Error "Number of frames to acquire has not been set") ∧
      (c.setNbFrames n).cam = c ∧
      (c.setNbFrames n).cam.m_nb_frames = c.m_nb_frames) ∧
    (0 ≤ n →
      (c.setNbFrames n).thrown = none ∧
      (c.setNbFrames n).cam.m_nb_frames = n ∧
      ((c.setNbFrames n).cam.getNbFrames v).thrown = none ∧
      ((c.setNbFrames n).cam.getNbFrames v).out = n) := by
  constructor
  · intro h
    simp [Camera.setNbFrames, h]
  · intro h
    have h2 : ¬ n < 0 := by omega
    simp [Camera.setNbFrames, Camera.getNbFrames, h2]

/-- C13, the claim as stated fails: `setBin(2, 2)` does not throw and replaces the stored
binning 1x1 by 2x2. -/
theorem setBin_accepts_unsupported :
    readyCamera.m_bin = (1, 1) ∧
    (readyCamera.setBin (2, 2)).thrown = none ∧
    (readyCamera.setBin (2, 2)).cam.m_bin = (2, 2) := by
  decide

/-- C13, amended. The rejection of unsupported binning is that of `checkBin`: for every
binning other than 1x1 it throws and leaves the members, the stored binning included, and
the caller's variable as they were, and it accepts 1x1. `setBin` validates nothing: it
never throws and stores the binning it is given, so `setBin(1, 1)` succeeds. -/
theorem checkBin_rejects_unsupported (b : Int × Int) (c : Camera) :
    (b ≠ (1, 1) →
      (c.checkBin b).thrown = some (HwError.Error "Binning values not supported") ∧
      (c.checkBin b).cam = c ∧ (c.checkBin b).out = b) ∧
    ((c.checkBin (1, 1)).thrown = none ∧ (c.checkBin (1, 1)).cam = c ∧
      (c.checkBin (1, 1)).out = (1, 1)) ∧
    ((c.setBin b).thrown = none ∧ (c.setBin b).cam.m_bin = b) ∧
    ((c.setBin (1, 1)).thrown = none ∧ (c.setBin (1, 1)).cam.m_bin = (1, 1)) := by
  refine ⟨?_, by simp [Camera.checkBin], by simp [Camera.setBin], by simp [Camera.setBin]⟩
  intro hb
  have h : b.1 ≠ 1 ∨ b.2 ≠ 1 := by
    by_contra hcon
    push_neg at hcon
    exact hb (Prod.ext hcon.1 hcon.2)
  simp [Camera.checkBin, h]

/-- C15. `setTrigMode(m)` succeeds exactly when `checkTrigMode(m)` holds, that is exactly
for `IntTrig`, `ExtTrigMult` and `ExtGate`; a rejected call throws, issues no driver
call at all and leaves every member, the stored trigger mode included, as it was; after an
accepted call `getTrigMode` returns `m` and one trigger command was issued. -/
theorem setTrigMode_validation (m : TrigMode) (c : Camera) :
    ((c.setTrigMode m).thrown = none ↔ checkTrigMode m = true) ∧
    (checkTrigMode m = true ↔
      m = TrigMode.IntTrig ∨ m = TrigMode.ExtTrigMult ∨ m = TrigMode.ExtGate) ∧
    (checkTrigMode m = false →
      (c.setTrigMode m).thrown = some (HwError.NotSupported "mode") ∧
      (c.setTrigMode m).log = [] ∧
      triggerCommands (c.setTrigMode m).log = 0 ∧
      (c.setTrigMode m).cam = c ∧
      (c.setTrigMode m).cam.getTrigMode = c.getTrigMode) ∧
    (checkTrigMode m = true →
      (c.setTrigMode m).cam.getTrigMode = m ∧
      triggerCommands (c.setTrigMode m).log = 1) := by
  cases m <;>
    simp [Camera.setTrigMode, checkTrigMode, Camera.getTrigMode, triggerCommands]

/-! ## Temperature target -/

/-- C16. With the device reporting the range `(dbValMin, dbValMax)`, `min` and `max` its
integer casts and `mid = max / 2` (C integer division): the range error is thrown exactly
when `(int) t + mid < min` or `(int) t + mid > max`, that is exactly when `(int) t` is
outside `[min - mid, max - mid]`, the range named in the message; then no value is sent to
the device and every member, the stored target included, is as before. Otherwise the
device is sent `(int) t + mid`, which lies in `[min, max]`, and when the device takes it
the call succeeds and `getTemperatureTarget` returns `t`. With a device that takes the
value, the call throws exactly in the out-of-range case. -/
theorem setTemperatureTarget_validation (dbValMin dbValMax t v : Rat) (ok : Bool)
    (c : Camera) :
    ((c.setTemperatureTarget (some (dbValMin, dbValMax)) true t).thrown ≠ none ↔
      (castInt t + Int.tdiv (castInt dbValMax) 2 < castInt dbValMin ∨
        castInt t + Int.tdiv (castInt dbValMax) 2 > castInt dbValMax)) ∧
    ((castInt t + Int.tdiv (castInt dbValMax) 2 < castInt dbValMin ∨
        castInt t + Int.tdiv (castInt dbValMax) 2 > castInt dbValMax) ↔
      (castInt t < castInt dbValMin - Int.tdiv (castInt dbValMax) 2 ∨
        castInt dbValMax - Int.tdiv (castInt dbValMax) 2 < castInt t)) ∧
    ((castInt t + Int.tdiv (castInt dbValMax) 2 < castInt dbValMin ∨
        castInt t + Int.tdiv (castInt dbValMax) 2 > castInt dbValMax) →
      (c.setTemperatureTarget (some (dbValMin, dbValMax)) ok t).thrown
        = some (HwError.Error (temperatureRangeMessage
            (castInt dbValMin - Int.tdiv (castInt dbValMax) 2)
            (castInt dbValMax - Int.tdiv (castInt dbValMax) 2))) ∧
      propWrites (c.setTemperatureTarget (some (dbValMin, dbValMax)) ok t).log = [] ∧
      (c.setTemperatureTarget (some (dbValMin, dbValMax)) ok t).cam = c) ∧
    (¬ (castInt t + Int.tdiv (castInt dbValMax) 2 < castInt dbValMin ∨
        castInt t + Int.tdiv (castInt dbValMax) 2 > castInt dbValMax) →
      propWrites (c.setTemperatureTarget (some (dbValMin, dbValMax)) ok t).log
        = [(PropId.TUIDP_TEMPERATURE,
            ((castInt t + Int.tdiv (castInt dbValMax) 2 : Int) : Rat))] ∧
      castInt dbValMin ≤ castInt t + Int.tdiv (castInt dbValMax) 2 ∧
      castInt t + Int.tdiv (castInt dbValMax) 2 ≤ castInt dbValMax ∧
      (ok = true →
        (c.setTemperatureTarget (some (dbValMin, dbValMax)) ok t).thrown = none ∧
        (c.setTemperatureTarget (some (dbValMin, dbValMax)) ok t).cam.m_temperature_target
          = t ∧
        ((c.setTemperatureTarget (some (dbValMin, dbValMax)) ok t).cam.getTemperatureTarget
          v).out = t)) := by
  refine ⟨?_, ?_, ?_, ?_⟩
  · by_cases h : castInt t + Int.tdiv (castInt dbValMax) 2 < castInt dbValMin ∨
        castInt t + Int.tdiv (castInt dbValMax) 2 > castInt dbValMax
    · simp [Camera.setTemperatureTarget, h]
    · simp [Camera.setTemperatureTarget, h]
  · constructor <;> (intro h; omega)
  · intro h
    simp [Camera.setTemperatureTarget, h, propWrites]
  · intro h
    refine ⟨?_, by omega, by omega, ?_⟩
    · cases ok <;> simp [Camera.setTemperatureTarget, h, propWrites]
    · intro hok
      subst hok
      simp [Camera.setTemperatureTarget, h, Camera.getTemperatureTarget]

/-! ## `prepareAcq`: start command and Trigger Timer -/

/-- The calls issued by `prepareAcq` when the device is already armed. -/
theorem prepareAcq_log_set (env : PrepareEnv) (c : Camera) (h : c.m_hThdEvent ≠ NULL) :
    (c.prepareAcq env).2 =
      if c.m_trigger_mode = TrigMode.IntTrig then [Event.timer_start] else [] := by
  unfold Camera.prepareAcq Camera.setStatus
  by_cases h3 : c.m_status = Status.Fault <;> simp [h, h3]

/-- C19. When `prepareAcq` arms the device (wait handle unset) it starts the capture in
software-trigger mode for `IntTrig` and in standard-trigger mode for `ExtTrigMult` and
`ExtGate`; and in every state it starts the Trigger Timer if and only if the trigger mode
is `IntTrig` (once then, never otherwise). -/
theorem prepareAcq_start_command (env : PrepareEnv) (c : Camera) :
    (c.m_hThdEvent = NULL → c.m_trigger_mode = TrigMode.IntTrig →
      capStartModes (c.prepareAcq env).2 = [CaptureMode.TUCCM_TRIGGER_SOFTWARE]) ∧
    (c.m_hThdEvent = NULL →
      c.m_trigger_mode = TrigMode.ExtTrigMult ∨ c.m_trigger_mode = TrigMode.ExtGate →
      capStartModes (c.prepareAcq env).2 = [CaptureMode.TUCCM_TRIGGER_STANDARD]) ∧
    (Event.timer_start ∈ (c.prepareAcq env).2 ↔ c.m_trigger_mode = TrigMode.IntTrig) ∧
    (timerStarts (c.prepareAcq env).2
      = if c.m_trigger_mode = TrigMode.IntTrig then 1 else 0) := by
  refine ⟨?_, ?_, ?_, ?_⟩
  · intro h hm
    rw [prepareAcq_log_unset env c h, hm]
    simp [capStartEvents, capStartModes]
  · intro h hm
    rw [prepareAcq_log_unset env c h]
    rcases hm with hm | hm <;> rw [hm] <;> simp [capStartEvents, capStartModes]
  · by_cases h : c.m_hThdEvent = NULL
    · rw [prepareAcq_log_unset env c h]
      cases hm : c.m_trigger_mode <;> simp [capStartEvents]
    · rw [prepareAcq_log_set env c h]
      cases hm : c.m_trigger_mode <;> simp
  · by_cases h : c.m_hThdEvent = NULL
    · rw [prepareAcq_log_unset env c h]
      cases hm : c.m_trigger_mode <;> simp [capStartEvents, timerStarts]
    · rw [prepareAcq_log_set env c h]
      cases hm : c.m_trigger_mode <;> simp [timerStarts]

/-! ## Inter-frame pacing -/

theorem sleeps_append (l1 l2 : List Event) : sleeps (l1 ++ l2) = sleeps l1 ++ sleeps l2 := by
  simp [sleeps, List.filterMap_append]

theorem bufferSlots_append (l1 l2 : List Event) :
    bufferSlots (l1 ++ l2) = bufferSlots l1 ++ bufferSlots l2 := by
  simp [bufferSlots, List.filterMap_append]

theorem copies_append (l1 l2 : List Event) : copies (l1 ++ l2) = copies l1 ++ copies l2 := by
  simp [copies, List.filterMap_append]

/-- The calls of a pass with a successful wait: the wait, the buffer request, the copy
and the notification, all for the counter value at entry, then the pacing sleep if any. -/
theorem loopIteration_ok_log (i : IterInput) (c : Camera)
    (hwf : c.m_wait_flag = false) (hs : i.stopRequested = false) (hok : i.waitOk = true) :
    (loopIteration i c).2.2 =
      [Event.TUCAM_Buf_WaitForFrame true,
       Event.getFrameBufferPtr c.m_acq_frame_nb,
       Event.memcpy c.m_acq_frame_nb i.data,
       Event.newFrameReady c.m_acq_frame_nb] ++
      (if c.m_nb_frames = 0 ∨ (c.m_acq_frame_nb + 1 < c.m_nb_frames ∧ c.m_lat_time ≠ 0) then
        [Event.usleep (toDWORD (c.m_lat_time * 1000000))] else []) := by
  rw [loopIteration_run i c hwf hs]
  simp only [hok, if_true]
  unfold frameReceived latencyCond Camera.setStatus
  by_cases h3 : c.m_status = Status.Fault <;> simp [h3]

theorem toDWORD_zero : toDWORD 0 = 0 := by
  have h : Rat.floor 0 = 0 := by
    apply le_antisymm
    · by_contra hcon
      have h1 : (1 : Int) ≤ Rat.floor 0 := by omega
      rw [Rat.le_floor] at h1
      norm_num at h1
    · rw [Rat.le_floor]
      norm_num
  simp [toDWORD, h]

/-- For a latency whose microseconds fit 32 bits, the argument of `usleep` is the latency
in whole microseconds. -/
theorem toDWORD_floor (x : Rat) (h0 : 0 ≤ x) (h1 : x < 2 ^ 32) :
    ((toDWORD x : Nat) : Int) = Rat.floor x := by
  have hf0 : (0 : Int) ≤ Rat.floor x := by
    rw [Rat.le_floor]
    exact_mod_cast h0
  have hf1 : Rat.floor x < 2 ^ 32 := by
    by_contra hcon
    have h2 : ((2 ^ 32 : Int)) ≤ Rat.floor x := by omega
    rw [Rat.le_floor] at h2
    have h3 : ((2 ^ 32 : Int) : Rat) = 2 ^ 32 := by norm_num
    rw [h3] at h2
    exact absurd h1 (not_lt.mpr h2)
  unfold toDWORD
  have hlt : (Rat.floor x).toNat < 2 ^ 32 := by omega
  rw [Nat.mod_eq_of_lt hlt]
  exact Int.toNat_of_nonneg hf0

/-- C18. After a successfully published frame the pass ends with the pacing sleep: no
sleep at all when the frame is the last expected one (`number_of_frames > 0` reached by
the incremented counter), a sleep of the configured latency otherwise (nothing to sleep
when the latency is 0 and a frame count is set); the sleep, when there is one, is the last
call of the pass, after the notification. With `number_of_frames = 0` every frame is
followed by one `usleep` of the latency; with `number_of_frames = N > 0` and a nonzero
latency so is every frame before the `N`-th. The `usleep` argument is the latency in whole
microseconds when that fits 32 bits. -/
theorem interframe_pacing (c : Camera) (i : IterInput)
    (hcond : loopCond true c = true) (hnb : 0 ≤ c.m_nb_frames)
    (hwf : c.m_wait_flag = false) (hs : i.stopRequested = false) (hok : i.waitOk = true) :
    ((0 < c.m_nb_frames ∧ c.m_acq_frame_nb + 1 = c.m_nb_frames) →
      sleeps (loopIteration i c).2.2 = []) ∧
    (¬ (0 < c.m_nb_frames ∧ c.m_acq_frame_nb + 1 = c.m_nb_frames) →
      sleptMicroseconds (loopIteration i c).2.2 = toDWORD (c.m_lat_time * 1000000)) ∧
    (c.m_nb_frames = 0 →
      sleeps (loopIteration i c).2.2 = [toDWORD (c.m_lat_time * 1000000)]) ∧
    (0 < c.m_nb_frames → c.m_acq_frame_nb + 1 < c.m_nb_frames → c.m_lat_time ≠ 0 →
      sleeps (loopIteration i c).2.2 = [toDWORD (c.m_lat_time * 1000000)]) ∧
    ((loopIteration i c).2.2 =
      [Event.TUCAM_Buf_WaitForFrame true,
       Event.getFrameBufferPtr c.m_acq_frame_nb,
       Event.memcpy c.m_acq_frame_nb i.data,
       Event.newFrameReady c.m_acq_frame_nb] ++
      (sleeps (loopIteration i c).2.2).map Event.usleep) ∧
    (0 ≤ c.m_lat_time → c.m_lat_time * 1000000 < 2 ^ 32 →
      ((toDWORD (c.m_lat_time * 1000000) : Nat) : Int)
        = Rat.floor (c.m_lat_time * 1000000)) := by
  have hlog := loopIteration_ok_log i c hwf hs hok
  have hlt : c.m_nb_frames = 0 ∨ c.m_acq_frame_nb < c.m_nb_frames := by
    simpa [loopCond] using hcond
  refine ⟨?_, ?_, ?_, ?_, ?_, ?_⟩
  · rintro ⟨h1, h2⟩
    have hne : c.m_nb_frames ≠ 0 := by omega
    have hnl : ¬ c.m_acq_frame_nb + 1 < c.m_nb_frames := by omega
    rw [hlog]
    simp [sleeps, hne, hnl]
  · intro hlast
    rw [hlog]
    by_cases h0 : c.m_nb_frames = 0
    · simp [sleptMicroseconds, sleeps, h0]
    · have hpos : 0 < c.m_nb_frames := by omega
      have hl : c.m_acq_frame_nb + 1 < c.m_nb_frames := by
        rcases hlt with h | h
        · exact absurd h h0
        · by_contra hcon
          exact hlast ⟨hpos, by omega⟩
      by_cases hz : c.m_lat_time = 0
      · simp [sleptMicroseconds, sleeps, h0, hz, toDWORD_zero]
      · simp [sleptMicroseconds, sleeps, h0, hl, hz]
  · intro h0
    rw [hlog]
    simp [sleeps, h0]
  · intro hpos hl hz
    rw [hlog]
    simp [sleeps, hl, hz]
  · rw [hlog]
    split <;> simp [sleeps]
  · intro h0 h1
    exact toDWORD_floor _ (by positivity) h1

/-- C18 at the paced camera, first of three frames. -/
theorem interframe_pacing_witness :
    ((0 < pacedCamera.m_nb_frames ∧
        pacedCamera.m_acq_frame_nb + 1 = pacedCamera.m_nb_frames) →
      sleeps (loopIteration frameOk pacedCamera).2.2 = []) ∧
    (¬ (0 < pacedCamera.m_nb_frames ∧
        pacedCamera.m_acq_frame_nb + 1 = pacedCamera.m_nb_frames) →
      sleptMicroseconds (loopIteration frameOk pacedCamera).2.2
        = toDWORD (pacedCamera.m_lat_time * 1000000)) ∧
    (pacedCamera.m_nb_frames = 0 →
      sleeps (loopIteration frameOk pacedCamera).2.2
        = [toDWORD (pacedCamera.m_lat_time * 1000000)]) ∧
    (0 < pacedCamera.m_nb_frames →
      pacedCamera.m_acq_frame_nb + 1 < pacedCamera.m_nb_frames →
      pacedCamera.m_lat_time ≠ 0 →
      sleeps (loopIteration frameOk pacedCamera).2.2
        = [toDWORD (pacedCamera.m_lat_time * 1000000)]) ∧
    ((loopIteration frameOk pacedCamera).2.2 =
      [Event.TUCAM_Buf_WaitForFrame true,
       Event.getFrameBufferPtr pacedCamera.m_acq_frame_nb,
       Event.memcpy pacedCamera.m_acq_frame_nb frameOk.data,
       Event.newFrameReady pacedCamera.m_acq_frame_nb] ++
      (sleeps (loopIteration frameOk pacedCamera).2.2).map Event.usleep) ∧
    (0 ≤ pacedCamera.m_lat_time → pacedCamera.m_lat_time * 1000000 < 2 ^ 32 →
      ((toDWORD (pacedCamera.m_lat_time * 1000000) : Nat) : Int)
        = Rat.floor (pacedCamera.m_lat_time * 1000000)) :=
  interframe_pacing pacedCamera frameOk (by decide) (by decide) (by decide) (by decide) (by decide)

/-! ## Frame sequence numbers -/

theorem seqFrom_succ (a : Int) (k : Nat) : seqFrom a (k + 1) = a :: seqFrom (a + 1) k := by
  unfold seqFrom
  rw [List.range_succ_eq_map, List.map_cons, List.map_map]
  congr 1
  · simp
  · apply List.map_congr_left
    intro j _
    simp only [Function.comp, Nat.succ_eq_add_one, Nat.cast_add, Nat.cast_one]
    ring

theorem seqFrom_getElem (a : Int) (k j : Nat) (h : j < k) :
    (seqFrom a k)[j]? = some (a + (j : Int)) := by
  unfold seqFrom
  rw [List.getElem?_map, List.getElem?_range h]
  rfl

/-- The trace is over as soon as the loop condition fails. -/
theorem captureTrace_exit (inputs : List IterInput) (cf : Bool) (c : Camera)
    (h : loopCond cf c = false) : captureTrace inputs cf c = (cf, c, []) := by
  cases inputs <;> simp [captureTrace, h]

theorem captureTrace_cons (i : IterInput) (rest : List IterInput) (cf : Bool) (c : Camera)
    (h : loopCond cf c = true) :
    captureTrace (i :: rest) cf c =
      ((captureTrace rest (loopIteration i c).1 (loopIteration i c).2.1).1,
       (captureTrace rest (loopIteration i c).1 (loopIteration i c).2.1).2.1,
       (loopIteration i c).2.2 ++
         (captureTrace rest (loopIteration i c).1 (loopIteration i c).2.1).2.2) := by
  simp [captureTrace, h]

/-- When the capture loop exits, its state and calls are those of the trace. -/
theorem captureLoop_eq_trace :
    ∀ (inputs : List IterInput) (cf : Bool) (c : Camera) (out : Camera × List Event),
      captureLoop inputs cf c = some out →
      out = ((captureTrace inputs cf c).2.1, (captureTrace inputs cf c).2.2) := by
  intro inputs
  induction inputs with
  | nil =>
    intro cf c out h
    by_cases hcond : loopCond cf c = true
    · simp [captureLoop, hcond] at h
    · simp [captureLoop, hcond] at h
      simp [captureTrace, ← h]
  | cons i rest ih =>
    intro cf c out h
    by_cases hcond : loopCond cf c = true
    · rw [captureLoop_cons i rest cf c hcond, Option.map_eq_some'] at h
      obtain ⟨o, ho, rfl⟩ := h
      rw [captureTrace_cons i rest cf c hcond]
      have := ih _ _ o ho
      rw [this]
    · have hc2 : loopCond cf c = false := by simpa using hcond
      rw [captureLoop_exit _ cf c hc2] at h
      rw [captureTrace_exit _ cf c hc2]
      simp at h
      rw [← h]

/-- A pass that observes a stop request or not: either way the frame count is kept. -/
theorem loopIteration_nb_frames (i : IterInput) (c : Camera) :
    (loopIteration i c).2.1.m_nb_frames = c.m_nb_frames := by
  by_cases hstop : (c.m_wait_flag || i.stopRequested) = true
  · rw [loopIteration_stop i c hstop]
  · have hwf : c.m_wait_flag = false := by
      cases hw : c.m_wait_flag <;> simp [hw] at hstop ⊢
    have hs : i.stopRequested = false := by
      cases hw : i.stopRequested <;> simp [hw] at hstop ⊢
    by_cases hok : i.waitOk = true
    · exact (loopIteration_ok i c hwf hs hok).2.2.1
    · exact (loopIteration_ko i c hwf hs (by simpa using hok)).2.2.1

/-- From any state, the notifications of the capture loop carry the counter value at
entry and its successors, in order; the buffer requests and the copies carry the same
numbers; with a frame count set, every number is below it. -/
theorem captureTrace_sequence :
    ∀ (inputs : List IterInput) (cf : Bool) (c : Camera),
      notifications (captureTrace inputs cf c).2.2
        = seqFrom c.m_acq_frame_nb (notifications (captureTrace inputs cf c).2.2).length ∧
      bufferSlots (captureTrace inputs cf c).2.2
        = notifications (captureTrace inputs cf c).2.2 ∧
      (copies (captureTrace inputs cf c).2.2).map Prod.fst
        = notifications (captureTrace inputs cf c).2.2 ∧
      (c.m_nb_frames ≠ 0 →
        ∀ n ∈ notifications (captureTrace inputs cf c).2.2, n < c.m_nb_frames) := by
  intro inputs
  induction inputs with
  | nil =>
    intro cf c
    simp [captureTrace, notifications, bufferSlots, copies, seqFrom]
  | cons i rest ih =>
    intro cf c
    by_cases hcond : loopCond cf c = true
    · rw [captureTrace_cons i rest cf c hcond]
      obtain ⟨ih1, ih2, ih3, ih4⟩ := ih (loopIteration i c).1 (loopIteration i c).2.1
      have hnbf := loopIteration_nb_frames i c
      simp only [notifications_append, bufferSlots_append, copies_append, List.map_append,
        List.length_append]
      by_cases hstop : (c.m_wait_flag || i.stopRequested) = true
      · have hr := loopIteration_stop i c hstop
        have hex := captureTrace_exit rest false
          { c with m_wait_flag := c.m_wait_flag || i.stopRequested } (by simp [loopCond])
        rw [hr]
        simp only [hex]
        simp [notifications, bufferSlots, copies, seqFrom]
      · have hwf : c.m_wait_flag = false := by
          cases hw : c.m_wait_flag <;> simp [hw] at hstop ⊢
        have hs : i.stopRequested = false := by
          cases hw : i.stopRequested <;> simp [hw] at hstop ⊢
        by_cases hok : i.waitOk = true
        · have hlog := loopIteration_ok_log i c hwf hs hok
          have hacq := (loopIteration_ok i c hwf hs hok).2.1
          have hn : notifications (loopIteration i c).2.2 = [c.m_acq_frame_nb] :=
            (loopIteration_ok i c hwf hs hok).2.2.2.2.2.1
          have hb : bufferSlots (loopIteration i c).2.2 = [c.m_acq_frame_nb] := by
            rw [hlog]; split <;> simp [bufferSlots]
          have hc : (copies (loopIteration i c).2.2).map Prod.fst = [c.m_acq_frame_nb] := by
            rw [hlog]; split <;> simp [copies]
          rw [hn, hb, hc, ih2, ih3]
          refine ⟨?_, rfl, rfl, ?_⟩
          · rw [List.length_singleton, Nat.add_comm, seqFrom_succ, ← hacq, ← ih1]
            rfl
          · intro hne n hmem
            have hlt : c.m_acq_frame_nb < c.m_nb_frames := by
              have : c.m_nb_frames = 0 ∨ c.m_acq_frame_nb < c.m_nb_frames := by
                have h2 := hcond
                simp only [loopCond, Bool.and_eq_true, Bool.or_eq_true, beq_iff_eq,
                  decide_eq_true_eq] at h2
                exact h2.2
              rcases this with h | h
              · exact absurd h hne
              · exact h
            rcases List.mem_append.mp hmem with h | h
            · rw [List.mem_singleton] at h
              rw [h]; exact hlt
            · have := ih4 (by rw [hnbf]; exact hne) n h
              rw [hnbf] at this
              exact this
        · have hko : i.waitOk = false := by simpa using hok
          obtain ⟨_, hacq, _, _, _, hlog⟩ := loopIteration_ko i c hwf hs hko
          have hn : notifications (loopIteration i c).2.2 = [] := by rw [hlog]; rfl
          have hb : bufferSlots (loopIteration i c).2.2 = [] := by rw [hlog]; rfl
          have hc : (copies (loopIteration i c).2.2).map Prod.fst = [] := by rw [hlog]; rfl
          rw [hn, hb, hc, ih2, ih3]
          refine ⟨?_, rfl, rfl, ?_⟩
          · simp only [List.nil_append, List.length_nil, Nat.zero_add]
            rw [← hacq]
            exact ih1
          · intro hne n hmem
            simp only [List.nil_append] at hmem
            have := ih4 (by rw [hnbf]; exact hne) n hmem
            rw [hnbf] at this
            exact this
    · have hc2 : loopCond cf c = false := by simpa using hcond
      rw [captureTrace_exit _ cf c hc2]
      simp [notifications, bufferSlots, copies, seqFrom]

/-- The counters as `startAcq` leaves them. -/
theorem startAcq_counters (c : Camera) :
    c.startAcq.1.m_acq_frame_nb = 0 ∧ c.startAcq.1.m_fps = 0 ∧
    c.startAcq.1.m_nb_frames = c.m_nb_frames := by
  unfold Camera.startAcq Camera.setStatus
  by_cases h3 : c.m_status = Status.Fault <;> simp [h3]

theorem startAcq_threadStart_counter (c0 : Camera) :
    c0.startAcq.1.threadStart.m_acq_frame_nb = 0 ∧
    c0.startAcq.1.threadStart.m_nb_frames = c0.m_nb_frames := by
  have h := startAcq_counters c0
  exact ⟨h.1, h.2.2⟩

/-- C20. In the run begun by `startAcq`, whatever the answers of the driver and of the
host (failed waits included): the notifications carry the numbers 0, 1, 2, ... in order,
the one at position `k` (from 0) carrying `k`; the host buffers requested and the buffers
copied into bear the same numbers; when `number_of_frames = N > 0` every notified number
is at least 0 and below `N`; a pass that publishes a frame requests the buffer for the
counter value, copies the data delivered by the driver into it and notifies that same
number; and when the loop exits, its calls are those of the trace. -/
theorem sequence_numbers (c0 : Camera) (inputs : List IterInput) :
    notifications (runLog c0 inputs)
      = seqFrom 0 (notifications (runLog c0 inputs)).length ∧
    (∀ k : Nat, k < (notifications (runLog c0 inputs)).length →
      (notifications (runLog c0 inputs))[k]? = some (k : Int)) ∧
    bufferSlots (runLog c0 inputs) = notifications (runLog c0 inputs) ∧
    (copies (runLog c0 inputs)).map Prod.fst = notifications (runLog c0 inputs) ∧
    (∀ N : Int, 0 < N → c0.m_nb_frames = N →
      ∀ n ∈ notifications (runLog c0 inputs), 0 ≤ n ∧ n < N) ∧
    (∀ (i : IterInput) (c : Camera), c.m_wait_flag = false → i.stopRequested = false →
      i.waitOk = true →
      bufferSlots (loopIteration i c).2.2 = [c.m_acq_frame_nb] ∧
      copies (loopIteration i c).2.2 = [(c.m_acq_frame_nb, i.data)] ∧
      notifications (loopIteration i c).2.2 = [c.m_acq_frame_nb]) ∧
    (∀ out, captureLoop inputs true c0.startAcq.1.threadStart = some out →
      out.2 = runLog c0 inputs) := by
  obtain ⟨h0, hnb⟩ := startAcq_threadStart_counter c0
  obtain ⟨h1, h2, h3, h4⟩ := captureTrace_sequence inputs true c0.startAcq.1.threadStart
  rw [h0] at h1
  have hk : ∀ k : Nat, k < (notifications (runLog c0 inputs)).length →
      (notifications (runLog c0 inputs))[k]? = some (k : Int) := by
    intro k hk
    have h5 : (notifications (runLog c0 inputs))[k]?
        = (seqFrom 0 (notifications (runLog c0 inputs)).length)[k]? := by
      unfold runLog
      rw [← h1]
    rw [h5, seqFrom_getElem 0 _ k hk]
    simp
  refine ⟨h1, hk, h2, h3, ?_, ?_, ?_⟩
  · intro N hN hN2 n hn
    constructor
    · obtain ⟨k, hklt, hkeq⟩ := List.getElem_of_mem hn
      have h6 := hk k hklt
      rw [List.getElem?_eq_getElem hklt, hkeq] at h6
      have h7 : n = (k : Int) := by simpa using h6
      omega
    · have := h4 (by rw [hnb, hN2]; omega) n hn
      rw [hnb, hN2] at this
      exact this
  · intro i c hwf hs hok
    have hlog := loopIteration_ok_log i c hwf hs hok
    refine ⟨?_, ?_, (loopIteration_ok i c hwf hs hok).2.2.2.2.2.1⟩
    · rw [hlog]; split <;> simp [bufferSlots]
    · rw [hlog]; split <;> simp [copies]
  · intro out hout
    have := captureLoop_eq_trace inputs true _ out hout
    rw [this]
    rfl

/-! ## Frame rate -/

theorem updateFps_fps (d : Rat) (c : Camera) :
    (updateFps d c).m_fps = if 0 < d then (c.m_acq_frame_nb : Rat) / d else c.m_fps := by
  unfold updateFps
  split <;> rfl

theorem updateFps_acq (d : Rat) (c : Camera) :
    (updateFps d c).m_acq_frame_nb = c.m_acq_frame_nb := by
  unfold updateFps
  split <;> rfl

/-- With a non-positive elapsed time the update does nothing at all. -/
theorem updateFps_skip (d : Rat) (c : Camera) (h : d ≤ 0) : updateFps d c = c := by
  unfold updateFps
  rw [if_neg (not_lt.mpr h)]

/-- The frame rate after a pass that reaches the measurement. -/
theorem loopIteration_fps (i : IterInput) (c : Camera)
    (hwf : c.m_wait_flag = false) (hs : i.stopRequested = false) :
    (loopIteration i c).2.1.m_fps =
      if 0 < i.delta_fps then ((loopIteration i c).2.1.m_acq_frame_nb : Rat) / i.delta_fps
      else c.m_fps := by
  rw [loopIteration_run i c hwf hs]
  by_cases hok : i.waitOk = true
  · simp only [hok, if_true]
    unfold frameReceived Camera.setStatus
    by_cases h3 : c.m_status = Status.Fault <;> simp [h3, updateFps_fps, updateFps_acq]
  · simp only [hok, if_false]
    unfold Camera.setStatus
    by_cases h3 : c.m_status = Status.Fault <;> simp [h3, updateFps_fps, updateFps_acq]

/-- The counter after a pass: unchanged or one more. -/
theorem loopIteration_acq (i : IterInput) (c : Camera) :
    (loopIteration i c).2.1.m_acq_frame_nb = c.m_acq_frame_nb ∨
    (loopIteration i c).2.1.m_acq_frame_nb = c.m_acq_frame_nb + 1 := by
  by_cases hstop : (c.m_wait_flag || i.stopRequested) = true
  · rw [loopIteration_stop i c hstop]
    exact Or.inl rfl
  · have hwf : c.m_wait_flag = false := by
      cases hw : c.m_wait_flag <;> simp [hw] at hstop ⊢
    have hs : i.stopRequested = false := by
      cases hw : i.stopRequested <;> simp [hw] at hstop ⊢
    by_cases hok : i.waitOk = true
    · exact Or.inr (loopIteration_ok i c hwf hs hok).2.1
    · exact Or.inl (loopIteration_ko i c hwf hs (by simpa using hok)).2.1

theorem prepareAcq_counters (env : PrepareEnv) (c : Camera) :
    (c.prepareAcq env).1.m_acq_frame_nb = c.m_acq_frame_nb ∧
    (c.prepareAcq env).1.m_fps = c.m_fps := by
  unfold Camera.prepareAcq Camera.setStatus
  by_cases h2 : c.m_hThdEvent = NULL <;> by_cases h3 : c.m_status = Status.Fault <;>
    simp [h2, h3]

theorem threadEpilogue_counters (c : Camera) :
    (threadEpilogue c).1.m_acq_frame_nb = c.m_acq_frame_nb ∧
    (threadEpilogue c).1.m_fps = c.m_fps := by
  unfold threadEpilogue epilogueAround
  by_cases hw : c.m_wait_flag = true
  · unfold Camera.setStatus
    by_cases h3 : c.m_status = Status.Fault <;> simp [hw, h3]
  · have hw2 : c.m_wait_flag = false := by simpa using hw
    simp only [hw2, Bool.not_false, if_true, stopAcq_state]
    unfold Camera.setStatus
    by_cases h3 : c.m_status = Status.Fault <;> simp [h3]

/-- In every reachable state the counter and the frame rate are non-negative. -/
theorem reachable_nonneg (c : Camera) (h : Reachable c) :
    0 ≤ c.m_acq_frame_nb ∧ 0 ≤ c.m_fps := by
  induction h with
  | ctor t u => simp [Camera.ctor]
  | prepareAcq env c _ ih =>
    obtain ⟨h1, h2⟩ := prepareAcq_counters env c
    rw [h1, h2]; exact ih
  | startAcq c _ _ =>
    obtain ⟨h1, h2, _⟩ := startAcq_counters c
    rw [h1, h2]; exact ⟨le_refl _, le_refl _⟩
  | stopAcq c _ ih =>
    rw [stopAcq_state]; exact ih
  | threadStart c _ ih => exact ih
  | loopPass i c _ ih =>
    have hacq : 0 ≤ (loopIteration i c).2.1.m_acq_frame_nb := by
      rcases loopIteration_acq i c with h | h <;> rw [h] <;> omega
    refine ⟨hacq, ?_⟩
    by_cases hstop : (c.m_wait_flag || i.stopRequested) = true
    · rw [loopIteration_stop i c hstop]
      exact ih.2
    · have hwf : c.m_wait_flag = false := by
        cases hw : c.m_wait_flag <;> simp [hw] at hstop ⊢
      have hs : i.stopRequested = false := by
        cases hw : i.stopRequested <;> simp [hw] at hstop ⊢
      rw [loopIteration_fps i c hwf hs]
      by_cases hd : 0 < i.delta_fps
      · rw [if_pos hd]
        apply div_nonneg
        · exact_mod_cast hacq
        · exact le_of_lt hd
      · rw [if_neg hd]
        exact ih.2
  | threadEnd c _ ih =>
    obtain ⟨h1, h2⟩ := threadEpilogue_counters c
    rw [h1, h2]; exact ih

/-- C11. In every state reachable from construction through the lifecycle operations
and the passes of the producer loop the frame rate is non-negative (and so is the frame
counter). A pass that reaches the measurement with a positive elapsed time sets the frame
rate to the frame counter divided by the elapsed time; with an elapsed time that is not
positive the update does nothing (no division) and the pass leaves the frame rate as it
was; so does a pass that ends on an observed stop request, which takes no measurement. -/
theorem fps_nonneg (c : Camera) (h : Reachable c) :
    0 ≤ c.m_fps ∧
    0 ≤ c.m_acq_frame_nb ∧
    (∀ i : IterInput, 0 ≤ (loopIteration i c).2.1.m_fps) ∧
    (∀ i : IterInput, c.m_wait_flag = false → i.stopRequested = false → 0 < i.delta_fps →
      (loopIteration i c).2.1.m_fps
        = ((loopIteration i c).2.1.m_acq_frame_nb : Rat) / i.delta_fps) ∧
    (∀ i : IterInput, i.delta_fps ≤ 0 → (loopIteration i c).2.1.m_fps = c.m_fps) ∧
    (∀ i : IterInput, (c.m_wait_flag || i.stopRequested) = true →
      (loopIteration i c).2.1.m_fps = c.m_fps) ∧
    (∀ (d : Rat) (c2 : Camera), d ≤ 0 → updateFps d c2 = c2) := by
  obtain ⟨hacq, hfps⟩ := reachable_nonneg c h
  have hstopfps : ∀ i : IterInput, (c.m_wait_flag || i.stopRequested) = true →
      (loopIteration i c).2.1.m_fps = c.m_fps := by
    intro i hstop
    rw [loopIteration_stop i c hstop]
  refine ⟨hfps, hacq, fun i => (reachable_nonneg _ (Reachable.loopPass i c h)).2,
    ?_, ?_, hstopfps, updateFps_skip⟩
  · intro i hwf hs hd
    rw [loopIteration_fps i c hwf hs, if_pos hd]
  · intro i hd
    by_cases hstop : (c.m_wait_flag || i.stopRequested) = true
    · exact hstopfps i hstop
    · have hwf : c.m_wait_flag = false := by
        cases hw : c.m_wait_flag <;> simp [hw] at hstop ⊢
      have hs : i.stopRequested = false := by
        cases hw : i.stopRequested <;> simp [hw] at hstop ⊢
      rw [loopIteration_fps i c hwf hs, if_neg (not_lt.mpr hd)]

/-- The running camera is reachable: construction, `prepareAcq`, `startAcq`, thread
start. -/
theorem runningCamera_reachable : Reachable runningCamera :=
  Reachable.threadStart _
    (Reachable.startAcq _ (Reachable.prepareAcq ⟨4096, 7⟩ _ (Reachable.ctor 10 _)))

/-- C11 at the running camera. -/
theorem fps_nonneg_witness :
    0 ≤ runningCamera.m_fps ∧
    0 ≤ runningCamera.m_acq_frame_nb ∧
    (∀ i : IterInput, 0 ≤ (loopIteration i runningCamera).2.1.m_fps) ∧
    (∀ i : IterInput, runningCamera.m_wait_flag = false → i.stopRequested = false →
      0 < i.delta_fps →
      (loopIteration i runningCamera).2.1.m_fps
        = ((loopIteration i runningCamera).2.1.m_acq_frame_nb : Rat) / i.delta_fps) ∧
    (∀ i : IterInput, i.delta_fps ≤ 0 →
      (loopIteration i runningCamera).2.1.m_fps = runningCamera.m_fps) ∧
    (∀ i : IterInput, (runningCamera.m_wait_flag || i.stopRequested) = true →
      (loopIteration i runningCamera).2.1.m_fps = runningCamera.m_fps) ∧
    (∀ (d : Rat) (c2 : Camera), d ≤ 0 → updateFps d c2 = c2) :=
  fps_nonneg runningCamera runningCamera_reachable

/-! ## Latency time -/

/-- What `getLatTime` does after `setLatTime(x)`, for every `x` and every content `v` of
the caller's variable: the variable still holds `v`, and the stored latency, the one the
pacing condition and the pacing sleep read, is `v`. -/
theorem getLatTime_after_set (x v : Rat) (c : Camera) :
    ((c.setLatTime x).cam.getLatTime v).out = v ∧
    ((c.setLatTime x).cam.getLatTime v).cam.m_lat_time = v ∧
    ((c.setLatTime x).cam.getLatTime v).thrown = none := by
  simp [Camera.setLatTime, Camera.getLatTime]

/-- C21, the code at the failing input: after `setLatTime(1)`, `getLatTime` called with a
variable that holds 0 leaves 0 in the variable, not the configured 1, and overwrites the
stored latency with 0; `setLatTime` alone had stored 1. -/
theorem getLatTime_overwrites :
    (readyCamera.setLatTime 1).cam.m_lat_time = 1 ∧
    ((readyCamera.setLatTime 1).cam.getLatTime 0).out = 0 ∧
    ((readyCamera.setLatTime 1).cam.getLatTime 0).out ≠ 1 ∧
    ((readyCamera.setLatTime 1).cam.getLatTime 0).cam.m_lat_time = 0 ∧
    ((readyCamera.setLatTime 1).cam.getLatTime 0).cam.m_lat_time ≠ 1 := by
  simp [Camera.setLatTime, Camera.getLatTime]

/-! ## Start/stop cycle -/

end Dhyana
